import Mathlib

/-!
The PlatformOperator reconciler: a shallow embedding of
`controllers/platformoperator_controller.go`.

The reconciler talks to three collaborators: the cluster client (`Get`,
`Create`, `Status().Patch`), the `Sourcer` and the bundle-deployment
inspection helper. The cluster is an explicit store that is threaded through
every call, together with the list of calls made so far; what the
collaborators answer during one pass (injected failures, the resolver, the
inspection function, the clock) is collected in `Env`.
-/

namespace PlatformOperators

/-! ## Kubernetes data -/

/-- Values of `metav1.ConditionStatus`. -/
inductive ConditionStatus where
  | ConditionTrue
  | ConditionFalse
  | ConditionUnknown
deriving DecidableEq, Repr

/-- A `metav1.Condition`. `LastTransitionTime` is a clock reading, `0` being
the zero time. -/
structure Condition where
  Type_ : String
  Status : ConditionStatus
  ObservedGeneration : Int
  LastTransitionTime : Nat
  Reason : String
  Message : String
deriving DecidableEq, Repr

/-- The key of an object: `types.NamespacedName`. -/
structure NamespacedName where
  Namespace : String
  Name : String
deriving DecidableEq, Repr

/-- The part of `metav1.ObjectMeta` the reconciler touches. -/
structure ObjectMeta where
  Name : String
  Namespace : String
  ManagedFields : List String
deriving DecidableEq, Repr

structure PackageSpec where
  Name : String
deriving DecidableEq, Repr

structure PlatformOperatorSpec where
  Package : PackageSpec
deriving DecidableEq, Repr

structure ActiveBundleDeployment where
  Name : String
deriving DecidableEq, Repr

structure PlatformOperatorStatus where
  Conditions : List Condition
  ActiveBundleDeployment : ActiveBundleDeployment
deriving DecidableEq, Repr

/-- The desired-state record: `platformv1alpha1.PlatformOperator`. -/
structure PlatformOperator where
  Meta : ObjectMeta
  Spec : PlatformOperatorSpec
  Status : PlatformOperatorStatus
deriving DecidableEq, Repr

structure BundleDeploymentSpec where
  Image : String
deriving DecidableEq, Repr

structure BundleDeploymentStatus where
  Conditions : List Condition
deriving DecidableEq, Repr

/-- The child descriptor: `rukpakv1alpha1.BundleDeployment`. -/
structure BundleDeployment where
  Meta : ObjectMeta
  Spec : BundleDeploymentSpec
  Status : BundleDeploymentStatus
deriving DecidableEq, Repr

/-- What the sourcer hands back; only `Image` is read by the reconciler. -/
structure Bundle where
  Image : String
deriving DecidableEq, Repr

/-- The value of `ctrl.Result`. -/
structure Result where
  Requeue : Bool
  RequeueAfter : Nat
deriving DecidableEq, Repr

/-- The literal `ctrl.Result{}`. -/
def Result.empty : Result := ⟨false, 0⟩

/-! ## Errors -/

/-- An error value produced by a collaborator (the cluster client or the
sourcer). Those packages cannot name the unexported `errSourceFailed`, so such
an error never matches it. `NotFound` is what `apierrors.IsNotFound` reports. -/
structure APIError where
  Message : String
  NotFound : Bool
deriving DecidableEq, Repr

/-- The error values that flow through the reconciler. -/
inductive GoError where
  | collaborator (e : APIError)
  | errSourceFailed
  | errorf (msg : String) (wrapped : GoError)
deriving DecidableEq, Repr

/-- The method `err.Error()`. -/
def GoError.Error : GoError → String
  | .collaborator e => e.Message
  | .errSourceFailed => "failed to run sourcing logic"
  | .errorf msg _ => msg

/-- The test `errors.Is(err, errSourceFailed)`: follows the `Unwrap` chain. -/
def GoError.IsSourceFailed : GoError → Bool
  | .collaborator _ => false
  | .errSourceFailed => true
  | .errorf _ wrapped => wrapped.IsSourceFailed

/-- The helper `client.IgnoreNotFound`. -/
def IgnoreNotFound (err : APIError) : Option GoError :=
  if err.NotFound then none else some (.collaborator err)

/-! ## Constants of `api/v1alpha1` -/

/-- Modelled from the spec: the constant `platformtypes.TypeInstalled`, whose
declaration is not among the sources; the spec names the tag "Installed". -/
def TypeInstalled : String := "Installed"

/-- Modelled from the spec: the constant `platformtypes.ReasonSourceFailed`;
the spec gives the reason "SourceFailed". -/
def ReasonSourceFailed : String := "SourceFailed"

/-- Modelled from the spec: the constant `platformtypes.ReasonInstallFailed`;
the spec gives the reason "InstallFailed". -/
def ReasonInstallFailed : String := "InstallFailed"

/-- Modelled from the spec: the constant `platformtypes.ReasonInstallSuccessful`;
the spec gives the reason "InstallSuccessful". -/
def ReasonInstallSuccessful : String := "InstallSuccessful"

/-! ## Helpers that live outside the controller file -/

/-- The lookup `meta.FindStatusCondition`: the first condition carrying the tag. -/
def FindStatusCondition (conditions : List Condition) (conditionType : String) :
    Option Condition :=
  conditions.find? (fun c => c.Type_ == conditionType)

/-- How an existing entry absorbs a new condition of the same type: the status
and the transition time move only when the status changes; reason, message and
observed generation are always overwritten. -/
def mergeCondition (now : Nat) (existing newCondition : Condition) : Condition :=
  let moved : Condition :=
    if existing.Status ≠ newCondition.Status then
      { existing with
        Status := newCondition.Status
        LastTransitionTime :=
          if newCondition.LastTransitionTime ≠ 0 then newCondition.LastTransitionTime
          else now }
    else existing
  { moved with
    Reason := newCondition.Reason
    Message := newCondition.Message
    ObservedGeneration := newCondition.ObservedGeneration }

/-- Modelled from the spec: `meta.SetStatusCondition` of the apimachinery
library, which is not among the sources. The spec asks that at most one
condition per type tag is retained, that setting a condition with an existing
type replaces it, and that last-transition semantics are kept for the tag being
replaced. A new tag is appended (stamped with the clock when it carries no
transition time); an existing tag is updated where it stands. -/
def SetStatusCondition (now : Nat) : List Condition → Condition → List Condition
  | [], newCondition =>
      [if newCondition.LastTransitionTime = 0 then
          { newCondition with LastTransitionTime := now }
        else newCondition]
  | c :: cs, newCondition =>
      if c.Type_ = newCondition.Type_ then mergeCondition now c newCondition :: cs
      else c :: SetStatusCondition now cs newCondition

/-- Modelled from the spec: `platformtypes.SetActiveBundleDeployment`, which is
not among the sources. The spec says it records the child's identity as the
active child on the record. -/
def SetActiveBundleDeployment (po : PlatformOperator) (name : String) : PlatformOperator :=
  { po with Status := { po.Status with ActiveBundleDeployment := ⟨name⟩ } }

/-- Modelled from the spec: `applier.NewBundleDeployment`, which is not among
the sources. The spec says the child's identity is derived deterministically
from the record's identity, one child per parent (the controller looks the child
up under the record's own name), that it references the resolved artifact, and
that its status block is filled in later by a downstream process. -/
def NewBundleDeployment (po : PlatformOperator) (image : String) : BundleDeployment :=
  { Meta := { Name := po.Meta.Name, Namespace := "", ManagedFields := [] }
    Spec := { Image := image }
    Status := { Conditions := [] } }

/-! ## The cluster and the collaborators -/

/-- One call made to a collaborator or to the logger. -/
inductive Call where
  | logInfo (msg : String) (req : NamespacedName)
  | logError (err : APIError) (msg : String)
  | getPlatformOperator (key : NamespacedName)
  | getBundleDeployment (key : NamespacedName)
  | source (po : PlatformOperator)
  | create (bd : BundleDeployment)
  | statusPatch (po : PlatformOperator) (fieldOwner : String)
deriving DecidableEq, Repr

/-- The stored objects and the calls made so far. -/
structure Cluster where
  PlatformOperators : List PlatformOperator
  BundleDeployments : List BundleDeployment
  calls : List Call
deriving DecidableEq, Repr

/-- What the collaborators answer during one pass. An injected error makes the
corresponding client call fail before it reaches the store. -/
structure Env where
  getPlatformOperatorErr : Option APIError
  getBundleDeploymentErr : Option APIError
  createErr : Option APIError
  patchErr : Option APIError
  Sourcer : PlatformOperator → Except APIError Bundle
  InspectBundleDeployment : List Condition → Option Condition
  now : Nat

def Cluster.record (w : Cluster) (c : Call) : Cluster :=
  { w with calls := w.calls ++ [c] }

def ObjectMeta.hasKey (m : ObjectMeta) (key : NamespacedName) : Bool :=
  m.Namespace == key.Namespace && m.Name == key.Name

/-- The stored record under a key, if any. -/
def lookupPlatformOperator (pos : List PlatformOperator) (key : NamespacedName) :
    Option PlatformOperator :=
  pos.find? (fun po => po.Meta.hasKey key)

/-- The stored child under a key, if any. -/
def lookupBundleDeployment (bds : List BundleDeployment) (key : NamespacedName) :
    Option BundleDeployment :=
  bds.find? (fun bd => bd.Meta.hasKey key)

/-- The answer of the API server for a missing object. -/
def notFoundError (key : NamespacedName) : APIError :=
  { Message := "not found: " ++ key.Name, NotFound := true }

/-- The answer of the API server to a create under a taken name. -/
def alreadyExistsError (name : String) : APIError :=
  { Message := "already exists: " ++ name, NotFound := false }

/-- What `r.Get(ctx, key, po)` answers for a PlatformOperator. -/
def getPlatformOperatorAnswer (env : Env) (pos : List PlatformOperator)
    (key : NamespacedName) :
    Except APIError PlatformOperator :=
  match env.getPlatformOperatorErr with
  | some e => .error e
  | none =>
    match lookupPlatformOperator pos key with
    | some po => .ok po
    | none => .error (notFoundError key)

/-- The call `r.Get(ctx, key, po)` for a PlatformOperator: a read. -/
def Client.GetPlatformOperator (env : Env) (w : Cluster) (key : NamespacedName) :
    Except APIError PlatformOperator × Cluster :=
  (getPlatformOperatorAnswer env w.PlatformOperators key, w.record (.getPlatformOperator key))

/-- What `r.Get(ctx, key, bd)` answers for a BundleDeployment. -/
def getBundleDeploymentAnswer (env : Env) (bds : List BundleDeployment)
    (key : NamespacedName) :
    Except APIError BundleDeployment :=
  match env.getBundleDeploymentErr with
  | some e => .error e
  | none =>
    match lookupBundleDeployment bds key with
    | some bd => .ok bd
    | none => .error (notFoundError key)

/-- The call `r.Get(ctx, key, bd)` for a BundleDeployment: a read. -/
def Client.GetBundleDeployment (env : Env) (w : Cluster) (key : NamespacedName) :
    Except APIError BundleDeployment × Cluster :=
  (getBundleDeploymentAnswer env w.BundleDeployments key, w.record (.getBundleDeployment key))

/-- What `r.Create(ctx, bd)` answers: the store refuses a second object under
the same key. -/
def createAnswer (env : Env) (bds : List BundleDeployment) (bd : BundleDeployment) :
    Option APIError :=
  match env.createErr with
  | some e => some e
  | none =>
    match lookupBundleDeployment bds ⟨bd.Meta.Namespace, bd.Meta.Name⟩ with
    | some _ => some (alreadyExistsError bd.Meta.Name)
    | none => none

/-- The call `r.Create(ctx, bd)`: the object is stored when the call succeeds. -/
def Client.Create (env : Env) (w : Cluster) (bd : BundleDeployment) :
    Option APIError × Cluster :=
  match createAnswer env w.BundleDeployments bd with
  | some e => (some e, w.record (.create bd))
  | none =>
    (none, { w.record (.create bd) with BundleDeployments := w.BundleDeployments ++ [bd] })

/-- The status of every stored record with the key of `po` becomes that of `po`. -/
def applyStatus (po : PlatformOperator) : List PlatformOperator → List PlatformOperator
  | [] => []
  | p :: ps =>
      (if p.Meta.hasKey ⟨po.Meta.Namespace, po.Meta.Name⟩ then { p with Status := po.Status }
        else p) :: applyStatus po ps

/-- What `r.Status().Patch(...)` answers. -/
def statusPatchAnswer (env : Env) (pos : List PlatformOperator) (po : PlatformOperator) :
    Option APIError :=
  match env.patchErr with
  | some e => some e
  | none =>
    match lookupPlatformOperator pos ⟨po.Meta.Namespace, po.Meta.Name⟩ with
    | none => some (notFoundError ⟨po.Meta.Namespace, po.Meta.Name⟩)
    | some _ => none

/-- The call `r.Status().Patch(ctx, po, client.Apply, client.FieldOwner(owner))`:
when it succeeds, only the status subtree of the stored record is written. -/
def Client.StatusPatch (env : Env) (w : Cluster) (po : PlatformOperator) (owner : String) :
    Option APIError × Cluster :=
  match statusPatchAnswer env w.PlatformOperators po with
  | some e => (some e, w.record (.statusPatch po owner))
  | none =>
    (none, { w.record (.statusPatch po owner) with
      PlatformOperators := applyStatus po w.PlatformOperators })

/-- The call `r.Sourcer.Source(ctx, po)`. -/
def Client.Source (env : Env) (w : Cluster) (po : PlatformOperator) :
    Except APIError Bundle × Cluster :=
  (env.Sourcer po, w.record (.source po))

/-! ## The controller -/

/-- The method `ensureDesiredBundleDeployment`. -/
def ensureDesiredBundleDeployment (env : Env) (w : Cluster) (po : PlatformOperator) :
    Except GoError BundleDeployment × Cluster :=
  match Client.GetBundleDeployment env w ⟨"", po.Meta.Name⟩ with
  | (.ok bd, w) => (.ok bd, w)
  | (.error err, w) =>
    if !err.NotFound then (.error (.collaborator err), w)
    else
      match Client.Source env w po with
      | (.error err, w) =>
          (.error (.errorf (err.Message ++ ": " ++ GoError.errSourceFailed.Error)
            .errSourceFailed), w)
      | (.ok sourcedBundle, w) =>
        let bd := NewBundleDeployment po sourcedBundle.Image
        match Client.Create env w bd with
        | (some err, w) => (.error (.collaborator err), w)
        | (none, w) => (.ok bd, w)

/-- The body of `Reconcile` after the record has been fetched and the status
patch has been deferred (lines 82 to 119): the returned pair, the record as the
pass leaves it, and the cluster. -/
def reconcileFetched (env : Env) (w : Cluster) (po : PlatformOperator) :
    (Result × Option GoError) × PlatformOperator × Cluster :=
  match ensureDesiredBundleDeployment env w po with
  | (.error err, w) =>
    let reason :=
      if err.IsSourceFailed then ReasonSourceFailed else ReasonInstallFailed
    let po := { po with Status := { po.Status with
      Conditions := SetStatusCondition env.now po.Status.Conditions
        { Type_ := TypeInstalled
          Status := .ConditionFalse
          ObservedGeneration := 0
          LastTransitionTime := 0
          Reason := reason
          Message := err.Error } } }
    ((Result.empty, some err), po, w)
  | (.ok bd, w) =>
    match env.InspectBundleDeployment bd.Status.Conditions with
    | some failureCond =>
      let po := { po with Status := { po.Status with
        Conditions := SetStatusCondition env.now po.Status.Conditions failureCond } }
      ((Result.empty, none), po, w)
    | none =>
      let po := { po with Status := { po.Status with
        Conditions := SetStatusCondition env.now po.Status.Conditions
          { Type_ := TypeInstalled
            Status := .ConditionTrue
            ObservedGeneration := 0
            LastTransitionTime := 0
            Reason := ReasonInstallSuccessful
            Message := "Successfully applied the " ++ bd.Meta.Name ++
              " BundleDeployment resource" } } }
      let po := SetActiveBundleDeployment po bd.Meta.Name
      ((Result.empty, none), po, w)

/-- The copy the deferred function submits: `po.DeepCopy()` with
`ObjectMeta.ManagedFields` set to nil. -/
def withoutManagedFields (po : PlatformOperator) : PlatformOperator :=
  { po with Meta := { po.Meta with ManagedFields := [] } }

/-- The deferred function of `Reconcile` (lines 74 to 80): a copy of the record
with its managed fields cleared is submitted; a failure is only logged. -/
def deferredStatusPatch (env : Env) (w : Cluster) (po : PlatformOperator) : Cluster :=
  let po := withoutManagedFields po
  match Client.StatusPatch env w po "platformoperator" with
  | (some err, w) => w.record (.logError err "failed to patch status")
  | (none, w) => w

/-- The method `Reconcile`. Deferred calls run last in, first out: the status
patch, then the closing log line. -/
def Reconcile (env : Env) (w : Cluster) (req : NamespacedName) :
    (Result × Option GoError) × Cluster :=
  let w := w.record (.logInfo "reconciling request" req)
  match Client.GetPlatformOperator env w req with
  | (.error err, w) =>
    ((Result.empty, IgnoreNotFound err), w.record (.logInfo "finished reconciling request" req))
  | (.ok po, w) =>
    match reconcileFetched env w po with
    | (ret, po, w) =>
      let w := deferredStatusPatch env w po
      (ret, w.record (.logInfo "finished reconciling request" req))

/-- A run of passes, each with its own collaborator behaviour and request. -/
def ReconcileAll : List (Env × NamespacedName) → Cluster → Cluster
  | [], w => w
  | (env, req) :: rest, w => ReconcileAll rest (Reconcile env w req).2

/-! ## Reading the list of calls -/

/-- The objects submitted by the status patches among the calls, in order. -/
def statusPatches : List Call → List PlatformOperator
  | [] => []
  | .statusPatch po _ :: cs => po :: statusPatches cs
  | _ :: cs => statusPatches cs

/-- The records handed to the resolver among the calls, in order. -/
def sourceCalls : List Call → List PlatformOperator
  | [] => []
  | .source po :: cs => po :: sourceCalls cs
  | _ :: cs => sourceCalls cs

/-- The children handed to `Create` among the calls, in order. -/
def createCalls : List Call → List BundleDeployment
  | [] => []
  | .create bd :: cs => bd :: createCalls cs
  | _ :: cs => createCalls cs

/-- Whether a call only writes a log line. -/
def Call.isLog : Call → Bool
  | .logInfo _ _ => true
  | .logError _ _ => true
  | _ => false

/-- The calls `ensureDesiredBundleDeployment` adds to those already made. -/
def ensureCalls (env : Env) (w : Cluster) (po : PlatformOperator) : List Call :=
  (ensureDesiredBundleDeployment env { w with calls := [] } po).2.calls

/-- How many conditions of a list carry the tag `Installed`. -/
def installedCount (conditions : List Condition) : Nat :=
  conditions.countP (fun c => c.Type_ == TypeInstalled)

/-! ## Sample inputs -/

/-- A record naming the package "P", as a user would create it. -/
def sampleRecord : PlatformOperator :=
  { Meta := { Name := "p", Namespace := "", ManagedFields := ["kubectl"] }
    Spec := { Package := { Name := "P" } }
    Status := { Conditions := [], ActiveBundleDeployment := ⟨""⟩ } }

/-- The request for `sampleRecord`. -/
def sampleRequest : NamespacedName := ⟨"", "p"⟩

/-- An inspection function for the examples: the first child condition that is
not true is reported as Installed=False with its reason and message. -/
def sampleInspect (conditions : List Condition) : Option Condition :=
  (conditions.find? (fun c => c.Status != .ConditionTrue)).map
    (fun c => { c with Type_ := TypeInstalled, Status := .ConditionFalse })

/-- Collaborators that do not fail, with a resolver returning "img:v1". -/
def sampleEnv : Env :=
  { getPlatformOperatorErr := none
    getBundleDeploymentErr := none
    createErr := none
    patchErr := none
    Sourcer := fun _ => .ok ⟨"img:v1"⟩
    InspectBundleDeployment := sampleInspect
    now := 7 }

/-- The collaborators of `sampleEnv` with a resolver that finds no package. -/
def sourceFailEnv : Env :=
  { sampleEnv with
    Sourcer := fun _ => .error ⟨"package not found in any source", false⟩ }

/-- A cluster holding `sampleRecord` and no child. -/
def sampleCluster : Cluster :=
  { PlatformOperators := [sampleRecord], BundleDeployments := [], calls := [] }

/-- A child of `sampleRecord` that references another image and reports a
failed unpack. -/
def failingChild : BundleDeployment :=
  { Meta := { Name := "p", Namespace := "", ManagedFields := [] }
    Spec := { Image := "other:v0" }
    Status := { Conditions :=
      [{ Type_ := "Unpacked", Status := .ConditionFalse, ObservedGeneration := 0,
         LastTransitionTime := 3, Reason := "UnpackFailed", Message := "pull error" }] } }

/-- The record after an earlier successful pass: Installed=True and an active child. -/
def installedRecord : PlatformOperator :=
  { sampleRecord with
    Status :=
      { Conditions :=
          [{ Type_ := TypeInstalled, Status := .ConditionTrue, ObservedGeneration := 0,
             LastTransitionTime := 5, Reason := ReasonInstallSuccessful,
             Message := "Successfully applied the p BundleDeployment resource" }]
        ActiveBundleDeployment := ⟨"p"⟩ } }

/-- A cluster holding `installedRecord` and its child, which now reports a failure. -/
def failingCluster : Cluster :=
  { PlatformOperators := [installedRecord], BundleDeployments := [failingChild], calls := [] }

/-! ## Lemmas on the list of calls -/

theorem statusPatches_append (xs ys : List Call) :
    statusPatches (xs ++ ys) = statusPatches xs ++ statusPatches ys := by
  induction xs with
  | nil => rfl
  | cons c cs ih => cases c <;> simp [statusPatches, ih]

theorem sourceCalls_append (xs ys : List Call) :
    sourceCalls (xs ++ ys) = sourceCalls xs ++ sourceCalls ys := by
  induction xs with
  | nil => rfl
  | cons c cs ih => cases c <;> simp [sourceCalls, ih]

theorem createCalls_append (xs ys : List Call) :
    createCalls (xs ++ ys) = createCalls xs ++ createCalls ys := by
  induction xs with
  | nil => rfl
  | cons c cs ih => cases c <;> simp [createCalls, ih]

/-! ## Lemmas on `ensureDesiredBundleDeployment` -/

theorem ensure_calls (env : Env) (w : Cluster) (cs : List Call) (po : PlatformOperator) :
    ensureDesiredBundleDeployment env { w with calls := cs } po =
      ((ensureDesiredBundleDeployment env { w with calls := [] } po).1,
        { (ensureDesiredBundleDeployment env { w with calls := [] } po).2 with
          calls := cs ++ (ensureDesiredBundleDeployment env { w with calls := [] } po).2.calls }) := by
  unfold ensureDesiredBundleDeployment Client.GetBundleDeployment Client.Source Client.Create
  simp only [Cluster.record]
  rcases getBundleDeploymentAnswer env w.BundleDeployments ⟨"", po.Meta.Name⟩ with err | bd
  · simp only
    rcases err.NotFound with _ | _
    · simp
    · simp only [Bool.not_true, Bool.false_eq_true, if_false]
      rcases env.Sourcer po with se | b
      · simp
      · simp only
        rcases createAnswer env w.BundleDeployments (NewBundleDeployment po b.Image) with _ | ce
        · simp
        · simp
  · simp

theorem ensure_fst (env : Env) (w : Cluster) (cs : List Call) (po : PlatformOperator) :
    (ensureDesiredBundleDeployment env { w with calls := cs } po).1 =
      (ensureDesiredBundleDeployment env w po).1 := by
  have h := ensure_calls env w w.calls po
  rw [ensure_calls env w cs po]
  exact (congrArg Prod.fst h).symm

/-- The four ways `ensureDesiredBundleDeployment` can end, with the calls each one makes. -/
theorem ensure_cases (env : Env) (w : Cluster) (po : PlatformOperator) :
    (∃ bd, getBundleDeploymentAnswer env w.BundleDeployments ⟨"", po.Meta.Name⟩ = .ok bd ∧
      ensureDesiredBundleDeployment env w po =
        (.ok bd, { w with calls := w.calls ++ [.getBundleDeployment ⟨"", po.Meta.Name⟩] })) ∨
    (∃ err, getBundleDeploymentAnswer env w.BundleDeployments ⟨"", po.Meta.Name⟩ = .error err ∧
      err.NotFound = false ∧
      ensureDesiredBundleDeployment env w po =
        (.error (.collaborator err),
          { w with calls := w.calls ++ [.getBundleDeployment ⟨"", po.Meta.Name⟩] })) ∨
    (∃ err se, getBundleDeploymentAnswer env w.BundleDeployments ⟨"", po.Meta.Name⟩ = .error err ∧
      err.NotFound = true ∧ env.Sourcer po = .error se ∧
      ensureDesiredBundleDeployment env w po =
        (.error (.errorf (se.Message ++ ": " ++ GoError.errSourceFailed.Error) .errSourceFailed),
          { w with calls := w.calls ++ [.getBundleDeployment ⟨"", po.Meta.Name⟩, .source po] })) ∨
    (∃ err b ce, getBundleDeploymentAnswer env w.BundleDeployments ⟨"", po.Meta.Name⟩ = .error err ∧
      err.NotFound = true ∧ env.Sourcer po = .ok b ∧
      createAnswer env w.BundleDeployments (NewBundleDeployment po b.Image) = some ce ∧
      ensureDesiredBundleDeployment env w po =
        (.error (.collaborator ce),
          { w with calls := w.calls ++ [.getBundleDeployment ⟨"", po.Meta.Name⟩, .source po,
              .create (NewBundleDeployment po b.Image)] })) ∨
    (∃ err b, getBundleDeploymentAnswer env w.BundleDeployments ⟨"", po.Meta.Name⟩ = .error err ∧
      err.NotFound = true ∧ env.Sourcer po = .ok b ∧
      createAnswer env w.BundleDeployments (NewBundleDeployment po b.Image) = none ∧
      ensureDesiredBundleDeployment env w po =
        (.ok (NewBundleDeployment po b.Image),
          { w with
            BundleDeployments := w.BundleDeployments ++ [NewBundleDeployment po b.Image]
            calls := w.calls ++ [.getBundleDeployment ⟨"", po.Meta.Name⟩, .source po,
              .create (NewBundleDeployment po b.Image)] })) := by
  unfold ensureDesiredBundleDeployment Client.GetBundleDeployment Client.Source Client.Create
  simp only [Cluster.record]
  rcases getBundleDeploymentAnswer env w.BundleDeployments ⟨"", po.Meta.Name⟩ with err | bd
  · right
    rcases hnf : err.NotFound with _ | _
    · left
      exact ⟨err, rfl, hnf, by simp [hnf]⟩
    · right
      rcases hs : env.Sourcer po with se | b
      · left
        exact ⟨err, se, rfl, hnf, rfl, by simp [hnf]⟩
      · right
        rcases hc : createAnswer env w.BundleDeployments (NewBundleDeployment po b.Image) with _ | ce
        · right
          exact ⟨err, b, rfl, hnf, rfl, hc, by simp [hnf, hc]⟩
        · left
          exact ⟨err, b, ce, rfl, hnf, rfl, hc, by simp [hnf, hc]⟩
  · left
    exact ⟨bd, rfl, rfl⟩

theorem ensure_platformOperators (env : Env) (w : Cluster) (po : PlatformOperator) :
    (ensureDesiredBundleDeployment env w po).2.PlatformOperators = w.PlatformOperators := by
  rcases ensure_cases env w po with ⟨_, _, h⟩ | ⟨_, _, _, h⟩ | ⟨_, _, _, _, _, h⟩ |
    ⟨_, _, _, _, _, _, _, h⟩ | ⟨_, _, _, _, _, _, h⟩ <;> rw [h]

/-! ## Lemmas on `Reconcile` -/

/-- The cluster after the opening log line and the fetch of the record. -/
theorem Reconcile_fetched (env : Env) (w : Cluster) (req : NamespacedName)
    (po : PlatformOperator)
    (hget : getPlatformOperatorAnswer env w.PlatformOperators req = .ok po) :
    Reconcile env w req =
      ((reconcileFetched env { w with calls := w.calls ++
          [.logInfo "reconciling request" req, .getPlatformOperator req] } po).1,
        (deferredStatusPatch env
          (reconcileFetched env { w with calls := w.calls ++
            [.logInfo "reconciling request" req, .getPlatformOperator req] } po).2.2
          (reconcileFetched env { w with calls := w.calls ++
            [.logInfo "reconciling request" req, .getPlatformOperator req] } po).2.1).record
          (.logInfo "finished reconciling request" req)) := by
  unfold Reconcile Client.GetPlatformOperator
  simp only [Cluster.record, hget, List.append_assoc, List.singleton_append]

theorem Reconcile_not_fetched (env : Env) (w : Cluster) (req : NamespacedName)
    (err : APIError)
    (hget : getPlatformOperatorAnswer env w.PlatformOperators req = .error err) :
    Reconcile env w req =
      ((Result.empty, IgnoreNotFound err),
        { w with calls := w.calls ++ [.logInfo "reconciling request" req,
            .getPlatformOperator req, .logInfo "finished reconciling request" req] }) := by
  unfold Reconcile Client.GetPlatformOperator
  simp only [Cluster.record, hget, List.append_assoc, List.singleton_append, List.nil_append,
    List.cons_append]

theorem reconcileFetched_cluster (env : Env) (w : Cluster) (po : PlatformOperator) :
    (reconcileFetched env w po).2.2 = (ensureDesiredBundleDeployment env w po).2 := by
  unfold reconcileFetched
  rcases ensureDesiredBundleDeployment env w po with ⟨r, w2⟩
  rcases r with err | bd
  · rfl
  · simp only
    rcases env.InspectBundleDeployment bd.Status.Conditions with _ | fc <;> rfl

theorem reconcileFetched_error (env : Env) (w : Cluster) (po : PlatformOperator)
    (err : GoError) (h : (ensureDesiredBundleDeployment env w po).1 = .error err) :
    (reconcileFetched env w po).1 = (Result.empty, some err) ∧
    (reconcileFetched env w po).2.1 =
      { po with Status := { po.Status with
          Conditions := SetStatusCondition env.now po.Status.Conditions
            { Type_ := TypeInstalled
              Status := .ConditionFalse
              ObservedGeneration := 0
              LastTransitionTime := 0
              Reason := if err.IsSourceFailed then ReasonSourceFailed else ReasonInstallFailed
              Message := err.Error } } } := by
  unfold reconcileFetched
  rcases hr : ensureDesiredBundleDeployment env w po with ⟨r, w2⟩
  rw [hr] at h
  simp only at h
  subst h
  exact ⟨rfl, rfl⟩

theorem reconcileFetched_failure (env : Env) (w : Cluster) (po : PlatformOperator)
    (bd : BundleDeployment) (fc : Condition)
    (h : (ensureDesiredBundleDeployment env w po).1 = .ok bd)
    (hi : env.InspectBundleDeployment bd.Status.Conditions = some fc) :
    (reconcileFetched env w po).1 = (Result.empty, none) ∧
    (reconcileFetched env w po).2.1 =
      { po with Status := { po.Status with
          Conditions := SetStatusCondition env.now po.Status.Conditions fc } } := by
  unfold reconcileFetched
  rcases hr : ensureDesiredBundleDeployment env w po with ⟨r, w2⟩
  rw [hr] at h
  simp only at h
  subst h
  simp [hi]

theorem reconcileFetched_success (env : Env) (w : Cluster) (po : PlatformOperator)
    (bd : BundleDeployment)
    (h : (ensureDesiredBundleDeployment env w po).1 = .ok bd)
    (hi : env.InspectBundleDeployment bd.Status.Conditions = none) :
    (reconcileFetched env w po).1 = (Result.empty, none) ∧
    (reconcileFetched env w po).2.1 =
      { po with Status :=
          { Conditions := SetStatusCondition env.now po.Status.Conditions
              { Type_ := TypeInstalled
                Status := .ConditionTrue
                ObservedGeneration := 0
                LastTransitionTime := 0
                Reason := ReasonInstallSuccessful
                Message := "Successfully applied the " ++ bd.Meta.Name ++
                  " BundleDeployment resource" }
            ActiveBundleDeployment := ⟨bd.Meta.Name⟩ } } := by
  unfold reconcileFetched
  rcases hr : ensureDesiredBundleDeployment env w po with ⟨r, w2⟩
  rw [hr] at h
  simp only at h
  subst h
  simp [hi, SetActiveBundleDeployment]

theorem deferredStatusPatch_eq (env : Env) (w : Cluster) (po : PlatformOperator) :
    deferredStatusPatch env w po =
      { PlatformOperators :=
          (match statusPatchAnswer env w.PlatformOperators (withoutManagedFields po) with
            | some _ => w.PlatformOperators
            | none => applyStatus (withoutManagedFields po) w.PlatformOperators)
        BundleDeployments := w.BundleDeployments
        calls := w.calls ++
          (.statusPatch (withoutManagedFields po) "platformoperator" ::
            (match statusPatchAnswer env w.PlatformOperators (withoutManagedFields po) with
              | some e => [.logError e "failed to patch status"]
              | none => [])) } := by
  unfold deferredStatusPatch Client.StatusPatch
  simp only [Cluster.record]
  rcases statusPatchAnswer env w.PlatformOperators (withoutManagedFields po) with _ | e
  · simp
  · simp

theorem reconcileFetched_patchErr (env : Env) (pe : Option APIError) (w : Cluster)
    (po : PlatformOperator) :
    reconcileFetched { env with patchErr := pe } w po = reconcileFetched env w po := rfl

theorem ensure_eq (env : Env) (w : Cluster) (cs : List Call) (po : PlatformOperator) :
    ensureDesiredBundleDeployment env { w with calls := cs } po =
      ((ensureDesiredBundleDeployment env w po).1,
        { PlatformOperators := w.PlatformOperators
          BundleDeployments := (ensureDesiredBundleDeployment env w po).2.BundleDeployments
          calls := cs ++ ensureCalls env w po }) := by
  have h := ensure_calls env w w.calls po
  have h1 : (ensureDesiredBundleDeployment env w po).1 =
      (ensureDesiredBundleDeployment env { w with calls := [] } po).1 :=
    (ensure_fst env w [] po).symm
  have h2 : (ensureDesiredBundleDeployment env w po).2.BundleDeployments =
      (ensureDesiredBundleDeployment env { w with calls := [] } po).2.BundleDeployments := by
    have hh := congrArg (fun r => r.2.BundleDeployments) h
    exact hh
  have h3 := ensure_platformOperators env { w with calls := [] } po
  rw [ensure_calls env w cs po, h1, h2]
  simp only [ensureCalls, h3]

theorem reconcileFetched_eq (env : Env) (w : Cluster) (cs : List Call)
    (po : PlatformOperator) :
    reconcileFetched env { w with calls := cs } po =
      ((reconcileFetched env w po).1, (reconcileFetched env w po).2.1,
        { PlatformOperators := w.PlatformOperators
          BundleDeployments := (ensureDesiredBundleDeployment env w po).2.BundleDeployments
          calls := cs ++ ensureCalls env w po }) := by
  have hc := reconcileFetched_cluster env { w with calls := cs } po
  rw [ensure_eq] at hc
  have hf := ensure_fst env w cs po
  rcases hr : (ensureDesiredBundleDeployment env w po).1 with err | bd
  · have h1 := reconcileFetched_error env w po err hr
    have h2 := reconcileFetched_error env { w with calls := cs } po err (hf.trans hr)
    refine Prod.ext (h2.1.trans h1.1.symm) (Prod.ext (h2.2.trans h1.2.symm) ?_)
    rw [hc, hr]
  · rcases hi : env.InspectBundleDeployment bd.Status.Conditions with _ | fc
    · have h1 := reconcileFetched_success env w po bd hr hi
      have h2 := reconcileFetched_success env { w with calls := cs } po bd (hf.trans hr) hi
      refine Prod.ext (h2.1.trans h1.1.symm) (Prod.ext (h2.2.trans h1.2.symm) ?_)
      rw [hc, hr]
    · have h1 := reconcileFetched_failure env w po bd fc hr hi
      have h2 := reconcileFetched_failure env { w with calls := cs } po bd fc (hf.trans hr) hi
      refine Prod.ext (h2.1.trans h1.1.symm) (Prod.ext (h2.2.trans h1.2.symm) ?_)
      rw [hc, hr]

/-- A pass that fetched the record, spelled out: the returned pair, the stored
objects and the calls. -/
theorem Reconcile_fetched_eq (env : Env) (w : Cluster) (req : NamespacedName)
    (po : PlatformOperator)
    (hget : getPlatformOperatorAnswer env w.PlatformOperators req = .ok po) :
    Reconcile env w req =
      ((reconcileFetched env w po).1,
        { PlatformOperators :=
            (match statusPatchAnswer env w.PlatformOperators
                (withoutManagedFields (reconcileFetched env w po).2.1) with
              | some _ => w.PlatformOperators
              | none => applyStatus (withoutManagedFields (reconcileFetched env w po).2.1)
                  w.PlatformOperators)
          BundleDeployments := (ensureDesiredBundleDeployment env w po).2.BundleDeployments
          calls := w.calls ++
            ([.logInfo "reconciling request" req, .getPlatformOperator req] ++
              ensureCalls env w po ++
              [.statusPatch (withoutManagedFields (reconcileFetched env w po).2.1)
                "platformoperator"] ++
              (match statusPatchAnswer env w.PlatformOperators
                  (withoutManagedFields (reconcileFetched env w po).2.1) with
                | some e => [.logError e "failed to patch status"]
                | none => []) ++
              [.logInfo "finished reconciling request" req]) }) := by
  rw [Reconcile_fetched env w req po hget, reconcileFetched_eq, deferredStatusPatch_eq]
  simp only [Cluster.record, List.append_assoc, List.cons_append, List.nil_append]

/-- The five ways `ensureDesiredBundleDeployment` can end: what it returns, the
stored children afterwards, and the calls it adds. -/
theorem ensure_outcomes (env : Env) (w : Cluster) (po : PlatformOperator) :
    (∃ bd, getBundleDeploymentAnswer env w.BundleDeployments ⟨"", po.Meta.Name⟩ = .ok bd ∧
      (ensureDesiredBundleDeployment env w po).1 = .ok bd ∧
      (ensureDesiredBundleDeployment env w po).2.BundleDeployments = w.BundleDeployments ∧
      ensureCalls env w po = [.getBundleDeployment ⟨"", po.Meta.Name⟩]) ∨
    (∃ err, getBundleDeploymentAnswer env w.BundleDeployments ⟨"", po.Meta.Name⟩ = .error err ∧
      err.NotFound = false ∧
      (ensureDesiredBundleDeployment env w po).1 = .error (.collaborator err) ∧
      (ensureDesiredBundleDeployment env w po).2.BundleDeployments = w.BundleDeployments ∧
      ensureCalls env w po = [.getBundleDeployment ⟨"", po.Meta.Name⟩]) ∨
    (∃ err se, getBundleDeploymentAnswer env w.BundleDeployments ⟨"", po.Meta.Name⟩ = .error err ∧
      err.NotFound = true ∧ env.Sourcer po = .error se ∧
      (ensureDesiredBundleDeployment env w po).1 =
        .error (.errorf (se.Message ++ ": " ++ GoError.errSourceFailed.Error) .errSourceFailed) ∧
      (ensureDesiredBundleDeployment env w po).2.BundleDeployments = w.BundleDeployments ∧
      ensureCalls env w po = [.getBundleDeployment ⟨"", po.Meta.Name⟩, .source po]) ∨
    (∃ err b ce, getBundleDeploymentAnswer env w.BundleDeployments ⟨"", po.Meta.Name⟩ = .error err ∧
      err.NotFound = true ∧ env.Sourcer po = .ok b ∧
      createAnswer env w.BundleDeployments (NewBundleDeployment po b.Image) = some ce ∧
      (ensureDesiredBundleDeployment env w po).1 = .error (.collaborator ce) ∧
      (ensureDesiredBundleDeployment env w po).2.BundleDeployments = w.BundleDeployments ∧
      ensureCalls env w po = [.getBundleDeployment ⟨"", po.Meta.Name⟩, .source po,
        .create (NewBundleDeployment po b.Image)]) ∨
    (∃ err b, getBundleDeploymentAnswer env w.BundleDeployments ⟨"", po.Meta.Name⟩ = .error err ∧
      err.NotFound = true ∧ env.Sourcer po = .ok b ∧
      createAnswer env w.BundleDeployments (NewBundleDeployment po b.Image) = none ∧
      (ensureDesiredBundleDeployment env w po).1 = .ok (NewBundleDeployment po b.Image) ∧
      (ensureDesiredBundleDeployment env w po).2.BundleDeployments =
        w.BundleDeployments ++ [NewBundleDeployment po b.Image] ∧
      ensureCalls env w po = [.getBundleDeployment ⟨"", po.Meta.Name⟩, .source po,
        .create (NewBundleDeployment po b.Image)]) := by
  have h := ensure_calls env w w.calls po
  have hw : ensureDesiredBundleDeployment env w po =
      ((ensureDesiredBundleDeployment env { w with calls := [] } po).1,
        { (ensureDesiredBundleDeployment env { w with calls := [] } po).2 with
          calls := w.calls ++
            (ensureDesiredBundleDeployment env { w with calls := [] } po).2.calls }) := h
  rw [hw]
  unfold ensureCalls
  rcases ensure_cases env { w with calls := [] } po with ⟨bd, h1, h⟩ | ⟨err, h1, h2, h⟩ |
    ⟨err, se, h1, h2, h3, h⟩ | ⟨err, b, ce, h1, h2, h3, h4, h⟩ | ⟨err, b, h1, h2, h3, h4, h⟩
  · left
    exact ⟨bd, h1, by simp [h]⟩
  · right; left
    exact ⟨err, h1, h2, by simp [h]⟩
  · right; right; left
    exact ⟨err, se, h1, h2, h3, by simp [h]⟩
  · right; right; right; left
    exact ⟨err, b, ce, h1, h2, h3, h4, by simp [h]⟩
  · right; right; right; right
    exact ⟨err, b, h1, h2, h3, h4, by simp [h]⟩

/-! ## Lemmas on `SetStatusCondition` -/

theorem find_setStatusCondition (now : Nat) (conditions : List Condition) (n : Condition) :
    ∃ c, FindStatusCondition (SetStatusCondition now conditions n) n.Type_ = some c ∧
      c.Type_ = n.Type_ ∧ c.Status = n.Status ∧ c.Reason = n.Reason ∧
      c.Message = n.Message := by
  induction conditions with
  | nil =>
    by_cases h0 : n.LastTransitionTime = 0
    · refine ⟨{ n with LastTransitionTime := now }, ?_, rfl, rfl, rfl, rfl⟩
      simp [SetStatusCondition, FindStatusCondition, h0]
    · refine ⟨n, ?_, rfl, rfl, rfl, rfl⟩
      simp [SetStatusCondition, FindStatusCondition, h0]
  | cons c cs ih =>
    by_cases hc : c.Type_ = n.Type_
    · refine ⟨mergeCondition now c n, ?_, ?_⟩
      · simp only [SetStatusCondition, hc, if_true, FindStatusCondition]
        rw [List.find?_cons_of_pos]
        simp only [mergeCondition]
        split <;> simp [hc]
      · simp only [mergeCondition]
        split
        · simp [hc]
        · rename_i hs
          simp only [ne_eq, not_not] at hs
          simp [hc, hs]
    · obtain ⟨c2, h1, h2⟩ := ih
      refine ⟨c2, ?_, h2⟩
      simp only [SetStatusCondition, hc, if_false, FindStatusCondition]
      rw [List.find?_cons_of_neg]
      · exact h1
      · simpa using hc

theorem statusPatches_ensureCalls (env : Env) (w : Cluster) (po : PlatformOperator) :
    statusPatches (ensureCalls env w po) = [] := by
  rcases ensure_outcomes env w po with ⟨_, _, _, _, h⟩ | ⟨_, _, _, _, _, h⟩ |
    ⟨_, _, _, _, _, _, _, h⟩ | ⟨_, _, _, _, _, _, _, _, _, h⟩ | ⟨_, _, _, _, _, _, _, _, h⟩ <;>
    rw [h] <;> rfl

/-- The status patches of a pass that fetched the record: exactly one is added. -/
theorem statusPatches_Reconcile (env : Env) (w : Cluster) (req : NamespacedName)
    (po : PlatformOperator)
    (hget : getPlatformOperatorAnswer env w.PlatformOperators req = .ok po) :
    statusPatches (Reconcile env w req).2.calls =
      statusPatches w.calls ++ [withoutManagedFields (reconcileFetched env w po).2.1] := by
  rw [Reconcile_fetched_eq env w req po hget]
  simp only [statusPatches_append, statusPatches_ensureCalls]
  rcases statusPatchAnswer env w.PlatformOperators
    (withoutManagedFields (reconcileFetched env w po).2.1) with _ | e <;>
    simp [statusPatches]

/-! ## Properties of `Reconcile` and `ensureDesiredBundleDeployment` -/

/-- C7: when the fetch of the record reports NotFound, `Reconcile` returns the
empty result and no error, leaves the stored objects as they were, and makes
no call besides its two log lines and the fetch itself: no status patch, no
create and no call to the resolver. -/
theorem Reconcile_record_not_found (env : Env) (w : Cluster) (req : NamespacedName)
    (err : APIError)
    (hget : getPlatformOperatorAnswer env w.PlatformOperators req = .error err)
    (hnf : err.NotFound = true) :
    Reconcile env w req =
      ((Result.empty, none),
        { w with calls := w.calls ++ [.logInfo "reconciling request" req,
            .getPlatformOperator req, .logInfo "finished reconciling request" req] }) ∧
    (Reconcile env w req).2.PlatformOperators = w.PlatformOperators ∧
    (Reconcile env w req).2.BundleDeployments = w.BundleDeployments ∧
    statusPatches (Reconcile env w req).2.calls = statusPatches w.calls ∧
    createCalls (Reconcile env w req).2.calls = createCalls w.calls ∧
    sourceCalls (Reconcile env w req).2.calls = sourceCalls w.calls := by
  rw [Reconcile_not_fetched env w req err hget]
  simp [IgnoreNotFound, hnf, statusPatches_append, createCalls_append, sourceCalls_append,
    statusPatches, createCalls, sourceCalls]

/-- C9: the pair `Reconcile` returns does not depend on whether the final status
patch succeeds: with any injected patch failure it is the pair returned when
the patch goes through, so a pass that returns no error with a working patch
returns no error with a failing one. -/
theorem Reconcile_patch_failure_not_escalated (env : Env) (w : Cluster)
    (req : NamespacedName) (e : APIError) :
    (Reconcile { env with patchErr := some e } w req).1 =
      (Reconcile { env with patchErr := none } w req).1 ∧
    ((Reconcile { env with patchErr := none } w req).1.2 = none →
      (Reconcile { env with patchErr := some e } w req).1.2 = none) := by
  have key : (Reconcile { env with patchErr := some e } w req).1 =
      (Reconcile { env with patchErr := none } w req).1 := by
    rcases hget : getPlatformOperatorAnswer env w.PlatformOperators req with err | po
    · rw [Reconcile_not_fetched { env with patchErr := some e } w req err hget,
        Reconcile_not_fetched { env with patchErr := none } w req err hget]
    · rw [Reconcile_fetched { env with patchErr := some e } w req po hget,
        Reconcile_fetched { env with patchErr := none } w req po hget]
      simp only [reconcileFetched_patchErr]
  exact ⟨key, fun h => by rw [key]; exact h⟩

/-- C4: when the fetch of the child returns an existing child `bd` (whatever it
references), `ensureDesiredBundleDeployment` returns `bd` itself after that
single read, and the whole `Reconcile` pass hands nothing to the resolver,
issues no create and leaves the stored children as they were. -/
theorem Reconcile_existing_child_short_circuit (env : Env) (w : Cluster)
    (req : NamespacedName) (po : PlatformOperator) (bd : BundleDeployment)
    (hget : getPlatformOperatorAnswer env w.PlatformOperators req = .ok po)
    (hchild : getBundleDeploymentAnswer env w.BundleDeployments ⟨"", po.Meta.Name⟩ = .ok bd) :
    ensureDesiredBundleDeployment env w po =
      (.ok bd, w.record (.getBundleDeployment ⟨"", po.Meta.Name⟩)) ∧
    sourceCalls (Reconcile env w req).2.calls = sourceCalls w.calls ∧
    createCalls (Reconcile env w req).2.calls = createCalls w.calls ∧
    (Reconcile env w req).2.BundleDeployments = w.BundleDeployments := by
  have hens : ensureDesiredBundleDeployment env w po =
      (.ok bd, w.record (.getBundleDeployment ⟨"", po.Meta.Name⟩)) := by
    unfold ensureDesiredBundleDeployment Client.GetBundleDeployment
    simp only [hchild]
  have hcalls : ensureCalls env w po = [.getBundleDeployment ⟨"", po.Meta.Name⟩] := by
    unfold ensureCalls ensureDesiredBundleDeployment Client.GetBundleDeployment
    simp only [hchild, Cluster.record, List.nil_append]
  refine ⟨hens, ?_⟩
  rw [Reconcile_fetched_eq env w req po hget, hcalls, hens]
  simp only [sourceCalls_append, createCalls_append, Cluster.record]
  refine ⟨?_, ?_, trivial⟩
  · split <;> simp [sourceCalls]
  · split <;> simp [createCalls]

/-- C1: in a pass that fetched the record and in which
`ensureDesiredBundleDeployment` fails with `err`, `Reconcile` returns the empty
result with that error, and the one object it submits is the record with the
condition Installed=False set, its message being the error text. The reason is
`SourceFailed` exactly when the fetch of the child reported NotFound and the
resolver returned an error; otherwise it is `InstallFailed`. -/
theorem Reconcile_ensure_failure_classified (env : Env) (w : Cluster)
    (req : NamespacedName) (po : PlatformOperator) (err : GoError)
    (hget : getPlatformOperatorAnswer env w.PlatformOperators req = .ok po)
    (hens : (ensureDesiredBundleDeployment env w po).1 = .error err) :
    (Reconcile env w req).1 = (Result.empty, some err) ∧
    ∃ reason obj c,
      statusPatches (Reconcile env w req).2.calls = statusPatches w.calls ++ [obj] ∧
      obj.Status.Conditions = SetStatusCondition env.now po.Status.Conditions
        { Type_ := TypeInstalled
          Status := .ConditionFalse
          ObservedGeneration := 0
          LastTransitionTime := 0
          Reason := reason
          Message := err.Error } ∧
      FindStatusCondition obj.Status.Conditions TypeInstalled = some c ∧
      c.Status = .ConditionFalse ∧ c.Reason = reason ∧ c.Message = err.Error ∧
      (reason = ReasonSourceFailed ∨ reason = ReasonInstallFailed) ∧
      (reason = ReasonSourceFailed ↔
        ∃ ge se, getBundleDeploymentAnswer env w.BundleDeployments ⟨"", po.Meta.Name⟩ =
            .error ge ∧ ge.NotFound = true ∧ env.Sourcer po = .error se) ∧
      (reason = ReasonInstallFailed ↔
        ¬ ∃ ge se, getBundleDeploymentAnswer env w.BundleDeployments ⟨"", po.Meta.Name⟩ =
            .error ge ∧ ge.NotFound = true ∧ env.Sourcer po = .error se) := by
  have hne : ReasonSourceFailed ≠ ReasonInstallFailed := by decide
  obtain ⟨hret, hpo⟩ := reconcileFetched_error env w po err hens
  have hp := statusPatches_Reconcile env w req po hget
  refine ⟨?_, ?_⟩
  · rw [Reconcile_fetched_eq env w req po hget, hret]
  · obtain ⟨c, hc1, _, hc3, hc4, hc5⟩ := find_setStatusCondition env.now po.Status.Conditions
      { Type_ := TypeInstalled
        Status := .ConditionFalse
        ObservedGeneration := 0
        LastTransitionTime := 0
        Reason := if err.IsSourceFailed then ReasonSourceFailed else ReasonInstallFailed
        Message := err.Error }
    refine ⟨if err.IsSourceFailed then ReasonSourceFailed else ReasonInstallFailed,
      withoutManagedFields (reconcileFetched env w po).2.1, c, hp, ?_, ?_, hc3, hc4, hc5, ?_⟩
    · rw [hpo]; rfl
    · rw [hpo]; exact hc1
    · rcases ensure_outcomes env w po with ⟨bd, _, h, _⟩ | ⟨ge, h1, h2, h, _⟩ |
        ⟨ge, se, h1, h2, h3, h, _⟩ | ⟨ge, b, ce, h1, h2, h3, h4, h, _⟩ | ⟨ge, b, _, _, _, _, h, _⟩
      · rw [h] at hens; cases hens
      · rw [h] at hens
        cases hens
        have hno : ¬ ∃ ge' se, getBundleDeploymentAnswer env w.BundleDeployments
            ⟨"", po.Meta.Name⟩ = .error ge' ∧ ge'.NotFound = true ∧
            env.Sourcer po = .error se := by
          rintro ⟨ge', se, h1', h2', _⟩
          rw [h1] at h1'
          cases h1'
          rw [h2] at h2'
          cases h2'
        simp only [GoError.IsSourceFailed, Bool.false_eq_true, if_false]
        exact ⟨Or.inr trivial, ⟨fun h => absurd h.symm hne, fun h => absurd h hno⟩,
          ⟨fun _ => hno, fun _ => trivial⟩⟩
      · rw [h] at hens
        cases hens
        have hyes : ∃ ge' se, getBundleDeploymentAnswer env w.BundleDeployments
            ⟨"", po.Meta.Name⟩ = .error ge' ∧ ge'.NotFound = true ∧
            env.Sourcer po = .error se := ⟨ge, se, h1, h2, h3⟩
        simp only [GoError.IsSourceFailed, if_true]
        exact ⟨Or.inl trivial, ⟨fun _ => hyes, fun _ => trivial⟩,
          ⟨fun h => absurd h hne, fun h => absurd hyes h⟩⟩
      · rw [h] at hens
        cases hens
        have hno : ¬ ∃ ge' se, getBundleDeploymentAnswer env w.BundleDeployments
            ⟨"", po.Meta.Name⟩ = .error ge' ∧ ge'.NotFound = true ∧
            env.Sourcer po = .error se := by
          rintro ⟨ge', se, _, _, h3'⟩
          rw [h3] at h3'
          cases h3'
        simp only [GoError.IsSourceFailed, Bool.false_eq_true, if_false]
        exact ⟨Or.inr trivial, ⟨fun h => absurd h.symm hne, fun h => absurd h hno⟩,
          ⟨fun _ => hno, fun _ => trivial⟩⟩
      · rw [h] at hens; cases hens

/-- C2: in a pass that fetched the record, got the child `bd` back from
`ensureDesiredBundleDeployment` and was handed the failure condition `fc` by the
inspection of the child, `Reconcile` returns the empty result and no error,
and the one object it submits is the record with `fc` set: its entry for the
type of `fc` carries the status, reason and message of `fc`. When `fc` is an
Installed=False condition, as the inspection capability promises, the record
ends with Installed=False and the reason and message reported for the child. -/
theorem Reconcile_child_failure_no_error (env : Env) (w : Cluster)
    (req : NamespacedName) (po : PlatformOperator) (bd : BundleDeployment) (fc : Condition)
    (hget : getPlatformOperatorAnswer env w.PlatformOperators req = .ok po)
    (hens : (ensureDesiredBundleDeployment env w po).1 = .ok bd)
    (hinspect : env.InspectBundleDeployment bd.Status.Conditions = some fc) :
    (Reconcile env w req).1 = (Result.empty, none) ∧
    ∃ obj c,
      statusPatches (Reconcile env w req).2.calls = statusPatches w.calls ++ [obj] ∧
      obj.Status.Conditions = SetStatusCondition env.now po.Status.Conditions fc ∧
      FindStatusCondition obj.Status.Conditions fc.Type_ = some c ∧
      c.Status = fc.Status ∧ c.Reason = fc.Reason ∧ c.Message = fc.Message ∧
      (fc.Type_ = TypeInstalled → fc.Status = .ConditionFalse →
        FindStatusCondition obj.Status.Conditions TypeInstalled = some c ∧
        c.Status = .ConditionFalse) := by
  obtain ⟨hret, hpo⟩ := reconcileFetched_failure env w po bd fc hens hinspect
  have hp := statusPatches_Reconcile env w req po hget
  refine ⟨?_, ?_⟩
  · rw [Reconcile_fetched_eq env w req po hget, hret]
  · obtain ⟨c, hc1, _, hc3, hc4, hc5⟩ :=
      find_setStatusCondition env.now po.Status.Conditions fc
    refine ⟨withoutManagedFields (reconcileFetched env w po).2.1, c, hp, ?_, ?_, hc3, hc4,
      hc5, ?_⟩
    · rw [hpo]; rfl
    · rw [hpo]; exact hc1
    · intro hty hst
      rw [hpo]
      exact ⟨hty ▸ hc1, hc3.trans hst⟩

/-! ## Lemmas on the store -/

theorem hasKey_iff (m : ObjectMeta) (key : NamespacedName) :
    m.hasKey key = true ↔ m.Namespace = key.Namespace ∧ m.Name = key.Name := by
  simp [ObjectMeta.hasKey]

theorem getPlatformOperatorAnswer_ok (env : Env) (pos : List PlatformOperator)
    (key : NamespacedName) (po : PlatformOperator)
    (h : getPlatformOperatorAnswer env pos key = .ok po) :
    lookupPlatformOperator pos key = some po := by
  unfold getPlatformOperatorAnswer at h
  rcases he : env.getPlatformOperatorErr with _ | e
  · rw [he] at h
    simp only at h
    rcases hl : lookupPlatformOperator pos key with _ | p
    · rw [hl] at h; cases h
    · rw [hl] at h; cases h; rfl
  · rw [he] at h; cases h

theorem getBundleDeploymentAnswer_ok (env : Env) (bds : List BundleDeployment)
    (key : NamespacedName) (bd : BundleDeployment)
    (h : getBundleDeploymentAnswer env bds key = .ok bd) :
    env.getBundleDeploymentErr = none ∧ lookupBundleDeployment bds key = some bd := by
  unfold getBundleDeploymentAnswer at h
  rcases he : env.getBundleDeploymentErr with _ | e
  · rw [he] at h
    simp only at h
    rcases hl : lookupBundleDeployment bds key with _ | p
    · rw [hl] at h; cases h
    · rw [hl] at h; cases h; exact ⟨rfl, rfl⟩
  · rw [he] at h; cases h

theorem createAnswer_none (env : Env) (bds : List BundleDeployment) (bd : BundleDeployment)
    (h : createAnswer env bds bd = none) :
    lookupBundleDeployment bds ⟨bd.Meta.Namespace, bd.Meta.Name⟩ = none := by
  unfold createAnswer at h
  rcases he : env.createErr with _ | e
  · rw [he] at h
    simp only at h
    rcases hl : lookupBundleDeployment bds ⟨bd.Meta.Namespace, bd.Meta.Name⟩ with _ | p
    · rfl
    · rw [hl] at h; cases h
  · rw [he] at h; cases h

theorem lookup_fetched_key (pos : List PlatformOperator) (key : NamespacedName)
    (po : PlatformOperator) (h : lookupPlatformOperator pos key = some po) :
    po.Meta.Namespace = key.Namespace ∧ po.Meta.Name = key.Name := by
  have := List.find?_some h
  exact (hasKey_iff po.Meta key).1 this

theorem lookup_applyStatus (obj : PlatformOperator) (pos : List PlatformOperator)
    (key : NamespacedName) :
    lookupPlatformOperator (applyStatus obj pos) key =
      (lookupPlatformOperator pos key).map (fun p =>
        if p.Meta.hasKey ⟨obj.Meta.Namespace, obj.Meta.Name⟩ then { p with Status := obj.Status }
        else p) := by
  induction pos with
  | nil => rfl
  | cons p ps ih =>
    unfold lookupPlatformOperator at ih ⊢
    by_cases hk : p.Meta.hasKey key = true
    · by_cases ho : p.Meta.hasKey ⟨obj.Meta.Namespace, obj.Meta.Name⟩ = true
      · simp [applyStatus, ho, hk]
      · simp [applyStatus, ho, hk]
    · by_cases ho : p.Meta.hasKey ⟨obj.Meta.Namespace, obj.Meta.Name⟩ = true
      · simp [applyStatus, ho, hk, ih]
      · simp [applyStatus, ho, hk, ih]

theorem lookup_append_new (bds : List BundleDeployment) (bd : BundleDeployment)
    (h : lookupBundleDeployment bds ⟨bd.Meta.Namespace, bd.Meta.Name⟩ = none) :
    lookupBundleDeployment (bds ++ [bd]) ⟨bd.Meta.Namespace, bd.Meta.Name⟩ = some bd := by
  unfold lookupBundleDeployment at h ⊢
  rw [List.find?_append, h]
  simp [ObjectMeta.hasKey]

/-- C3: in a pass that fetched the record, found no child (the fetch of the child
reported NotFound), got a bundle from the resolver, created the child without
error and was told of no failure by the inspection, `Reconcile` returns the
empty result and no error; the child built from the resolved image is created
and stored under the name of the record; and the one object submitted carries
Installed=True with reason `InstallSuccessful` and a message naming the child,
and has the name of the child as its active child. When the patch goes
through, the stored record has exactly that status. -/
theorem Reconcile_success_path (env : Env) (w : Cluster) (req : NamespacedName)
    (po : PlatformOperator) (ge : APIError) (bundle : Bundle)
    (hget : getPlatformOperatorAnswer env w.PlatformOperators req = .ok po)
    (hnochild : getBundleDeploymentAnswer env w.BundleDeployments ⟨"", po.Meta.Name⟩ =
      .error ge)
    (hnf : ge.NotFound = true)
    (hsource : env.Sourcer po = .ok bundle)
    (hcreate : createAnswer env w.BundleDeployments
      (NewBundleDeployment po bundle.Image) = none)
    (hinspect : env.InspectBundleDeployment
      (NewBundleDeployment po bundle.Image).Status.Conditions = none) :
    (Reconcile env w req).1 = (Result.empty, none) ∧
    (NewBundleDeployment po bundle.Image).Spec.Image = bundle.Image ∧
    (Reconcile env w req).2.BundleDeployments =
      w.BundleDeployments ++ [NewBundleDeployment po bundle.Image] ∧
    createCalls (Reconcile env w req).2.calls =
      createCalls w.calls ++ [NewBundleDeployment po bundle.Image] ∧
    lookupBundleDeployment (Reconcile env w req).2.BundleDeployments ⟨"", po.Meta.Name⟩ =
      some (NewBundleDeployment po bundle.Image) ∧
    ∃ obj c,
      statusPatches (Reconcile env w req).2.calls = statusPatches w.calls ++ [obj] ∧
      obj.Status.Conditions = SetStatusCondition env.now po.Status.Conditions
        { Type_ := TypeInstalled
          Status := .ConditionTrue
          ObservedGeneration := 0
          LastTransitionTime := 0
          Reason := ReasonInstallSuccessful
          Message := "Successfully applied the " ++
            (NewBundleDeployment po bundle.Image).Meta.Name ++ " BundleDeployment resource" } ∧
      FindStatusCondition obj.Status.Conditions TypeInstalled = some c ∧
      c.Status = .ConditionTrue ∧ c.Reason = ReasonInstallSuccessful ∧
      c.Message = "Successfully applied the " ++
        (NewBundleDeployment po bundle.Image).Meta.Name ++ " BundleDeployment resource" ∧
      obj.Status.ActiveBundleDeployment.Name =
        (NewBundleDeployment po bundle.Image).Meta.Name ∧
      (statusPatchAnswer env w.PlatformOperators obj = none →
        lookupPlatformOperator (Reconcile env w req).2.PlatformOperators req =
          some { po with Status := obj.Status }) := by
  have hout : (ensureDesiredBundleDeployment env w po).1 =
        .ok (NewBundleDeployment po bundle.Image) ∧
      (ensureDesiredBundleDeployment env w po).2.BundleDeployments =
        w.BundleDeployments ++ [NewBundleDeployment po bundle.Image] ∧
      ensureCalls env w po = [.getBundleDeployment ⟨"", po.Meta.Name⟩, .source po,
        .create (NewBundleDeployment po bundle.Image)] := by
    rcases ensure_outcomes env w po with ⟨bd, h1, _⟩ | ⟨err, h1, h2, _⟩ |
      ⟨err, se, _, _, h3, _⟩ | ⟨err, b, ce, _, _, h3, h4, _⟩ | ⟨err, b, _, _, h3, _, h⟩
    · rw [hnochild] at h1; cases h1
    · rw [hnochild] at h1; cases h1; rw [hnf] at h2; cases h2
    · rw [hsource] at h3; cases h3
    · rw [hsource] at h3; cases h3; rw [hcreate] at h4; cases h4
    · rw [hsource] at h3; cases h3; exact h
  obtain ⟨hens, hbds, hcalls⟩ := hout
  obtain ⟨hret, hpo⟩ := reconcileFetched_success env w po _ hens hinspect
  have hp := statusPatches_Reconcile env w req po hget
  have hlook := getPlatformOperatorAnswer_ok env _ _ _ hget
  have hkey := lookup_fetched_key _ _ _ hlook
  have hnone := createAnswer_none env _ _ hcreate
  refine ⟨?_, rfl, ?_, ?_, ?_, ?_⟩
  · rw [Reconcile_fetched_eq env w req po hget, hret]
  · rw [Reconcile_fetched_eq env w req po hget, hbds]
  · rw [Reconcile_fetched_eq env w req po hget, hcalls]
    simp only [createCalls_append]
    split <;> simp [createCalls]
  · rw [Reconcile_fetched_eq env w req po hget, hbds]
    exact lookup_append_new _ _ hnone
  · obtain ⟨c, hc1, _, hc3, hc4, hc5⟩ := find_setStatusCondition env.now po.Status.Conditions
      { Type_ := TypeInstalled
        Status := .ConditionTrue
        ObservedGeneration := 0
        LastTransitionTime := 0
        Reason := ReasonInstallSuccessful
        Message := "Successfully applied the " ++
          (NewBundleDeployment po bundle.Image).Meta.Name ++ " BundleDeployment resource" }
    refine ⟨withoutManagedFields (reconcileFetched env w po).2.1, c, hp, ?_, ?_, hc3, hc4,
      hc5, ?_, ?_⟩
    · rw [hpo]; rfl
    · rw [hpo]; exact hc1
    · rw [hpo]; rfl
    · intro hpatch
      rw [Reconcile_fetched_eq env w req po hget]
      simp only [hpatch]
      rw [lookup_applyStatus, hlook]
      have hk : po.Meta.hasKey
          ⟨(withoutManagedFields (reconcileFetched env w po).2.1).Meta.Namespace,
            (withoutManagedFields (reconcileFetched env w po).2.1).Meta.Name⟩ = true := by
        rw [hpo]
        simp [withoutManagedFields, ObjectMeta.hasKey]
      simp only [Option.map_some', hk, if_true]

/-- C6: a pass that fetched the record makes exactly one status patch, on each of
its three exits (error from `ensureDesiredBundleDeployment`, failure reported
for the child, success). The patch comes after every other client call of the
pass, only log lines follow it, and the pair returned is the one computed
before it. The object submitted is the record as the pass left it, with its
managed fields cleared and with the condition of that exit set. -/
theorem Reconcile_single_status_patch (env : Env) (w : Cluster) (req : NamespacedName)
    (po : PlatformOperator)
    (hget : getPlatformOperatorAnswer env w.PlatformOperators req = .ok po) :
    ∃ pre post obj c,
      (Reconcile env w req).2.calls =
        w.calls ++ pre ++ [.statusPatch obj "platformoperator"] ++ post ∧
      statusPatches pre = [] ∧
      (∀ x ∈ post, x.isLog = true) ∧
      statusPatches (Reconcile env w req).2.calls = statusPatches w.calls ++ [obj] ∧
      obj = withoutManagedFields (reconcileFetched env w po).2.1 ∧
      obj.Meta.ManagedFields = [] ∧
      obj.Status.Conditions = SetStatusCondition env.now po.Status.Conditions c ∧
      ((∃ err, (ensureDesiredBundleDeployment env w po).1 = .error err ∧
          (Reconcile env w req).1 = (Result.empty, some err) ∧
          c = { Type_ := TypeInstalled
                Status := .ConditionFalse
                ObservedGeneration := 0
                LastTransitionTime := 0
                Reason :=
                  if err.IsSourceFailed then ReasonSourceFailed else ReasonInstallFailed
                Message := err.Error }) ∨
        (∃ bd, (ensureDesiredBundleDeployment env w po).1 = .ok bd ∧
          env.InspectBundleDeployment bd.Status.Conditions = some c ∧
          (Reconcile env w req).1 = (Result.empty, none)) ∨
        (∃ bd, (ensureDesiredBundleDeployment env w po).1 = .ok bd ∧
          env.InspectBundleDeployment bd.Status.Conditions = none ∧
          (Reconcile env w req).1 = (Result.empty, none) ∧
          c = { Type_ := TypeInstalled
                Status := .ConditionTrue
                ObservedGeneration := 0
                LastTransitionTime := 0
                Reason := ReasonInstallSuccessful
                Message := "Successfully applied the " ++ bd.Meta.Name ++
                  " BundleDeployment resource" })) := by
  have hp := statusPatches_Reconcile env w req po hget
  have hret : (Reconcile env w req).1 = (reconcileFetched env w po).1 := by
    rw [Reconcile_fetched_eq env w req po hget]
  have hcalls : (Reconcile env w req).2.calls =
      w.calls ++ ([.logInfo "reconciling request" req, .getPlatformOperator req] ++
          ensureCalls env w po) ++
        [.statusPatch (withoutManagedFields (reconcileFetched env w po).2.1)
          "platformoperator"] ++
        ((match statusPatchAnswer env w.PlatformOperators
            (withoutManagedFields (reconcileFetched env w po).2.1) with
          | some e => [.logError e "failed to patch status"]
          | none => []) ++ [.logInfo "finished reconciling request" req]) := by
    rw [Reconcile_fetched_eq env w req po hget]
    simp only [List.append_assoc]
  have hpre : statusPatches ([.logInfo "reconciling request" req, .getPlatformOperator req] ++
      ensureCalls env w po) = [] := by
    rw [statusPatches_append, statusPatches_ensureCalls]
    rfl
  have hpost : ∀ x ∈ (match statusPatchAnswer env w.PlatformOperators
        (withoutManagedFields (reconcileFetched env w po).2.1) with
      | some e => [Call.logError e "failed to patch status"]
      | none => []) ++ [Call.logInfo "finished reconciling request" req],
      x.isLog = true := by
    rcases statusPatchAnswer env w.PlatformOperators
      (withoutManagedFields (reconcileFetched env w po).2.1) with _ | e
    · intro x hx
      simp only [List.nil_append, List.mem_singleton] at hx
      subst hx; rfl
    · intro x hx
      simp only [List.singleton_append, List.mem_cons, List.mem_singleton, List.mem_nil_iff,
        or_false] at hx
      rcases hx with hx | hx <;> subst hx <;> rfl
  rcases hr : (ensureDesiredBundleDeployment env w po).1 with err | bd
  · obtain ⟨h1, h2⟩ := reconcileFetched_error env w po err hr
    exact ⟨_, _, _, _, hcalls, hpre, hpost, hp, rfl, rfl, by rw [h2]; rfl,
      Or.inl ⟨err, rfl, hret.trans h1, rfl⟩⟩
  · rcases hi : env.InspectBundleDeployment bd.Status.Conditions with _ | fc
    · obtain ⟨h1, h2⟩ := reconcileFetched_success env w po bd hr hi
      exact ⟨_, _, _, _, hcalls, hpre, hpost, hp, rfl, rfl, by rw [h2]; rfl,
        Or.inr (Or.inr ⟨bd, rfl, hi, hret.trans h1, rfl⟩)⟩
    · obtain ⟨h1, h2⟩ := reconcileFetched_failure env w po bd fc hr hi
      exact ⟨_, _, _, fc, hcalls, hpre, hpost, hp, rfl, rfl, by rw [h2]; rfl,
        Or.inr (Or.inl ⟨bd, rfl, hi, hret.trans h1⟩)⟩

/-- C10: on both failing exits of a pass that fetched the record (an error from
`ensureDesiredBundleDeployment`, or a failure reported for the child) the
record differs from the fetched one in its condition list only: the object
submitted has the active child, the spec and the name of the fetched record,
and whether or not the patch goes through, every stored record keeps the
active child it had. -/
theorem Reconcile_failure_keeps_active_child (env : Env) (w : Cluster)
    (req : NamespacedName) (po : PlatformOperator)
    (hget : getPlatformOperatorAnswer env w.PlatformOperators req = .ok po)
    (hfail : (∃ err, (ensureDesiredBundleDeployment env w po).1 = .error err) ∨
      (∃ bd fc, (ensureDesiredBundleDeployment env w po).1 = .ok bd ∧
        env.InspectBundleDeployment bd.Status.Conditions = some fc)) :
    ∃ obj,
      statusPatches (Reconcile env w req).2.calls = statusPatches w.calls ++ [obj] ∧
      obj.Status.ActiveBundleDeployment = po.Status.ActiveBundleDeployment ∧
      obj.Spec = po.Spec ∧ obj.Meta.Name = po.Meta.Name ∧
      obj.Meta.Namespace = po.Meta.Namespace ∧
      (reconcileFetched env w po).2.1 =
        { po with Status := { po.Status with Conditions := obj.Status.Conditions } } ∧
      ∀ key, (lookupPlatformOperator (Reconcile env w req).2.PlatformOperators key).map
          (fun p => p.Status.ActiveBundleDeployment) =
        (lookupPlatformOperator w.PlatformOperators key).map
          (fun p => p.Status.ActiveBundleDeployment) := by
  have hp := statusPatches_Reconcile env w req po hget
  have hlook := getPlatformOperatorAnswer_ok env _ _ _ hget
  have hkey := lookup_fetched_key _ _ _ hlook
  have hpo : ∃ cs, (reconcileFetched env w po).2.1 =
      { po with Status := { po.Status with Conditions := cs } } := by
    rcases hfail with ⟨err, he⟩ | ⟨bd, fc, hb, hi⟩
    · exact ⟨_, (reconcileFetched_error env w po err he).2⟩
    · exact ⟨_, (reconcileFetched_failure env w po bd fc hb hi).2⟩
  obtain ⟨cs, hcs⟩ := hpo
  refine ⟨withoutManagedFields (reconcileFetched env w po).2.1, hp, ?_, ?_, ?_, ?_, ?_, ?_⟩
  · rw [hcs]; rfl
  · rw [hcs]; rfl
  · rw [hcs]; rfl
  · rw [hcs]; rfl
  · rw [hcs]; rfl
  · intro key
    rw [Reconcile_fetched_eq env w req po hget]
    simp only
    rcases statusPatchAnswer env w.PlatformOperators
      (withoutManagedFields (reconcileFetched env w po).2.1) with _ | e
    · simp only
      rw [lookup_applyStatus, Option.map_map]
      rcases hl : lookupPlatformOperator w.PlatformOperators key with _ | p
      · rfl
      · simp only [Option.map_some', Function.comp_apply, Option.some.injEq]
        split
        · rename_i hk
          have hk1 := (hasKey_iff _ _).1 hk
          have hk2 := lookup_fetched_key _ _ _ hl
          rw [hcs] at hk1
          simp only [withoutManagedFields] at hk1
          have hreq : key = req := by
            cases key; cases req
            simp only [NamespacedName.mk.injEq]
            simp only at hk2 hkey
            exact ⟨hk2.1.symm.trans (hk1.1.trans hkey.1), hk2.2.symm.trans (hk1.2.trans hkey.2)⟩
          subst hreq
          rw [hlook] at hl
          cases hl
          rw [hcs]
          rfl
        · rfl
    · rfl

theorem ensure_existing (env : Env) (w : Cluster) (po : PlatformOperator)
    (bd : BundleDeployment)
    (hchild : getBundleDeploymentAnswer env w.BundleDeployments ⟨"", po.Meta.Name⟩ = .ok bd) :
    ensureDesiredBundleDeployment env w po =
      (.ok bd, w.record (.getBundleDeployment ⟨"", po.Meta.Name⟩)) := by
  unfold ensureDesiredBundleDeployment Client.GetBundleDeployment
  simp only [hchild]

theorem ensure_calls_eq (env : Env) (w : Cluster) (po : PlatformOperator) :
    (ensureDesiredBundleDeployment env w po).2.calls = w.calls ++ ensureCalls env w po := by
  have h := ensure_eq env w w.calls po
  have h2 : ensureDesiredBundleDeployment env w po =
      ((ensureDesiredBundleDeployment env w po).1,
        { PlatformOperators := w.PlatformOperators
          BundleDeployments := (ensureDesiredBundleDeployment env w po).2.BundleDeployments
          calls := w.calls ++ ensureCalls env w po }) := h
  exact congrArg (fun r => r.2.calls) h2

theorem filter_length_of_lookup_none (bds : List BundleDeployment) (key : NamespacedName)
    (h : lookupBundleDeployment bds key = none) :
    bds.filter (fun bd => bd.Meta.hasKey key) = [] := by
  unfold lookupBundleDeployment at h
  rw [List.find?_eq_none] at h
  rw [List.filter_eq_nil_iff]
  exact h

theorem filter_length_of_lookup_some (bds : List BundleDeployment) (key : NamespacedName)
    (bd : BundleDeployment) (h : lookupBundleDeployment bds key = some bd) :
    0 < (bds.filter (fun bd => bd.Meta.hasKey key)).length := by
  unfold lookupBundleDeployment at h
  have h1 := List.find?_some h
  have h2 := List.mem_of_find?_eq_some h
  exact List.length_pos_of_mem (List.mem_filter.2 ⟨h2, h1⟩)

theorem lookup_child_key (bds : List BundleDeployment) (key : NamespacedName)
    (bd : BundleDeployment) (h : lookupBundleDeployment bds key = some bd) :
    bd.Meta.Namespace = key.Namespace ∧ bd.Meta.Name = key.Name := by
  have := List.find?_some h
  exact (hasKey_iff bd.Meta key).1 this

/-- C5: when a first call of `ensureDesiredBundleDeployment` returns the child
`bd1`, a second call on the cluster it leaves (with a fetch of the child that
is not made to fail) returns the same `bd1`, named after the record, after a
single read: it creates nothing. Over both calls one child is created when
none was stored before, and none otherwise, so that a store holding at most
one child for the record ends up holding exactly one. -/
theorem ensure_twice_idempotent (env1 env2 : Env) (w : Cluster) (po : PlatformOperator)
    (bd1 : BundleDeployment)
    (hfirst : (ensureDesiredBundleDeployment env1 w po).1 = .ok bd1)
    (hread : env2.getBundleDeploymentErr = none) :
    ensureDesiredBundleDeployment env2 (ensureDesiredBundleDeployment env1 w po).2 po =
      (.ok bd1, (ensureDesiredBundleDeployment env1 w po).2.record
        (.getBundleDeployment ⟨"", po.Meta.Name⟩)) ∧
    bd1.Meta.Name = po.Meta.Name ∧
    (lookupBundleDeployment w.BundleDeployments ⟨"", po.Meta.Name⟩ = none →
      (ensureDesiredBundleDeployment env2
          (ensureDesiredBundleDeployment env1 w po).2 po).2.BundleDeployments =
        w.BundleDeployments ++ [bd1] ∧
      createCalls (ensureDesiredBundleDeployment env2
          (ensureDesiredBundleDeployment env1 w po).2 po).2.calls =
        createCalls w.calls ++ [bd1]) ∧
    (lookupBundleDeployment w.BundleDeployments ⟨"", po.Meta.Name⟩ ≠ none →
      (ensureDesiredBundleDeployment env2
          (ensureDesiredBundleDeployment env1 w po).2 po).2.BundleDeployments =
        w.BundleDeployments ∧
      createCalls (ensureDesiredBundleDeployment env2
          (ensureDesiredBundleDeployment env1 w po).2 po).2.calls =
        createCalls w.calls) ∧
    ((w.BundleDeployments.filter
        (fun bd => bd.Meta.hasKey ⟨"", po.Meta.Name⟩)).length ≤ 1 →
      ((ensureDesiredBundleDeployment env2
          (ensureDesiredBundleDeployment env1 w po).2 po).2.BundleDeployments.filter
        (fun bd => bd.Meta.hasKey ⟨"", po.Meta.Name⟩)).length = 1) := by
  have hcalls := ensure_calls_eq env1 w po
  have second : ∀ bds, (ensureDesiredBundleDeployment env1 w po).2.BundleDeployments = bds →
      lookupBundleDeployment bds ⟨"", po.Meta.Name⟩ = some bd1 →
      ensureDesiredBundleDeployment env2 (ensureDesiredBundleDeployment env1 w po).2 po =
        (.ok bd1, (ensureDesiredBundleDeployment env1 w po).2.record
          (.getBundleDeployment ⟨"", po.Meta.Name⟩)) := by
    intro bds hb hl
    apply ensure_existing
    rw [hb]
    unfold getBundleDeploymentAnswer
    rw [hread]
    simp only [hl]
  rcases ensure_outcomes env1 w po with ⟨bd, h1, h, hb, hc⟩ | ⟨_, _, _, h, _⟩ |
    ⟨_, _, _, _, _, h, _⟩ | ⟨_, _, _, _, _, _, _, h, _⟩ | ⟨ge, b, h1, h2, h3, h4, h, hb, hc⟩
  · rw [h] at hfirst
    cases hfirst
    obtain ⟨_, hl⟩ := getBundleDeploymentAnswer_ok env1 _ _ _ h1
    have hname : bd1.Meta.Name = po.Meta.Name := (lookup_child_key _ _ _ hl).2
    rw [second _ hb hl]
    refine ⟨rfl, hname, ?_, ?_, ?_⟩
    · intro hnone
      rw [hnone] at hl
      cases hl
    · intro _
      simp only [Cluster.record, hb, hcalls, hc, createCalls_append, createCalls,
        List.append_nil, and_self]
    · intro hle
      have hpos := filter_length_of_lookup_some _ _ _ hl
      simp only [Cluster.record, hb]
      omega
  · rw [h] at hfirst; cases hfirst
  · rw [h] at hfirst; cases hfirst
  · rw [h] at hfirst; cases hfirst
  · rw [h] at hfirst
    cases hfirst
    have hnone : lookupBundleDeployment w.BundleDeployments ⟨"", po.Meta.Name⟩ = none :=
      createAnswer_none env1 _ _ h4
    have hl : lookupBundleDeployment (w.BundleDeployments ++ [NewBundleDeployment po b.Image])
        ⟨"", po.Meta.Name⟩ = some (NewBundleDeployment po b.Image) :=
      lookup_append_new _ _ hnone
    rw [second _ hb hl]
    refine ⟨rfl, rfl, ?_, ?_, ?_⟩
    · intro _
      simp only [Cluster.record, hb, hcalls, hc, createCalls_append, createCalls,
        List.append_nil, and_self]
    · intro hsome
      exact absurd hnone hsome
    · intro _
      simp only [Cluster.record, hb, List.filter_append,
        filter_length_of_lookup_none _ _ hnone]
      simp [ObjectMeta.hasKey, NewBundleDeployment]

/-! ## The invariant on condition lists -/

theorem mergeCondition_type (now : Nat) (c n : Condition) :
    (mergeCondition now c n).Type_ = c.Type_ := by
  unfold mergeCondition
  split <;> rfl

/-- Setting a condition whose type is present keeps the types of the list as they are. -/
theorem setStatusCondition_types_present (now : Nat) (conditions : List Condition)
    (n : Condition) (h : ∃ c ∈ conditions, c.Type_ = n.Type_) :
    (SetStatusCondition now conditions n).map (fun c => c.Type_) =
      conditions.map (fun c => c.Type_) := by
  induction conditions with
  | nil => obtain ⟨c, hc, _⟩ := h; cases hc
  | cons c cs ih =>
    by_cases hc : c.Type_ = n.Type_
    · simp [SetStatusCondition, hc, mergeCondition_type]
    · have h2 : ∃ c ∈ cs, c.Type_ = n.Type_ := by
        obtain ⟨d, hd, hdt⟩ := h
        rcases List.mem_cons.1 hd with rfl | hd
        · exact absurd hdt hc
        · exact ⟨d, hd, hdt⟩
      simp [SetStatusCondition, hc, ih h2]

/-- Setting a condition whose type is absent adds its type at the end. -/
theorem setStatusCondition_types_absent (now : Nat) (conditions : List Condition)
    (n : Condition) (h : ∀ c ∈ conditions, c.Type_ ≠ n.Type_) :
    (SetStatusCondition now conditions n).map (fun c => c.Type_) =
      conditions.map (fun c => c.Type_) ++ [n.Type_] := by
  induction conditions with
  | nil =>
    simp only [SetStatusCondition, List.map_cons, List.map_nil, List.nil_append]
    split <;> rfl
  | cons c cs ih =>
    have hc : c.Type_ ≠ n.Type_ := h c (List.mem_cons_self _ _)
    have h2 : ∀ d ∈ cs, d.Type_ ≠ n.Type_ := fun d hd => h d (List.mem_cons_of_mem _ hd)
    simp [SetStatusCondition, hc, ih h2]

theorem installedCount_eq (conditions : List Condition) :
    installedCount conditions = (conditions.map (fun c => c.Type_)).count TypeInstalled := by
  unfold installedCount List.count
  rw [List.countP_map]
  rfl

theorem installedCount_setStatusCondition (now : Nat) (conditions : List Condition)
    (n : Condition) (h : installedCount conditions ≤ 1) :
    installedCount (SetStatusCondition now conditions n) ≤ 1 := by
  rw [installedCount_eq] at h ⊢
  by_cases hp : ∃ c ∈ conditions, c.Type_ = n.Type_
  · rw [setStatusCondition_types_present now conditions n hp]
    exact h
  · have ha : ∀ c ∈ conditions, c.Type_ ≠ n.Type_ := fun c hc hct => hp ⟨c, hc, hct⟩
    rw [setStatusCondition_types_absent now conditions n ha, List.count_append]
    by_cases hn : n.Type_ = TypeInstalled
    · have h0 : (conditions.map (fun c => c.Type_)).count TypeInstalled = 0 := by
        rw [List.count_eq_zero]
        intro hmem
        obtain ⟨c, hc, hct⟩ := List.mem_map.1 hmem
        exact ha c hc (hct.trans hn.symm)
      rw [h0, hn]
      simp
    · rw [List.count_singleton]
      simp only [beq_iff_eq, hn, if_false, Nat.add_zero]
      exact h

theorem reconcileFetched_conditions (env : Env) (w : Cluster) (po : PlatformOperator) :
    ∃ c, (reconcileFetched env w po).2.1.Status.Conditions =
      SetStatusCondition env.now po.Status.Conditions c := by
  rcases hr : (ensureDesiredBundleDeployment env w po).1 with err | bd
  · exact ⟨_, by rw [(reconcileFetched_error env w po err hr).2]⟩
  · rcases hi : env.InspectBundleDeployment bd.Status.Conditions with _ | fc
    · exact ⟨_, by rw [(reconcileFetched_success env w po bd hr hi).2]⟩
    · exact ⟨_, by rw [(reconcileFetched_failure env w po bd fc hr hi).2]⟩

theorem mem_applyStatus (obj : PlatformOperator) (pos : List PlatformOperator)
    (p : PlatformOperator) (h : p ∈ applyStatus obj pos) :
    p.Status = obj.Status ∨ p ∈ pos := by
  induction pos with
  | nil => cases h
  | cons q qs ih =>
    simp only [applyStatus, List.mem_cons] at h
    rcases h with h | h
    · by_cases hk : q.Meta.hasKey ⟨obj.Meta.Namespace, obj.Meta.Name⟩ = true
      · rw [if_pos hk] at h
        left; rw [h]
      · rw [if_neg hk] at h
        right; rw [h]; exact List.mem_cons_self _ _
    · rcases ih h with h | h
      · exact Or.inl h
      · exact Or.inr (List.mem_cons_of_mem _ h)

/-- One pass keeps the invariant: stored records and submitted objects carry at
most one `Installed` condition. -/
theorem Reconcile_installed_unique (env : Env) (w : Cluster) (req : NamespacedName)
    (hstore : ∀ p ∈ w.PlatformOperators, installedCount p.Status.Conditions ≤ 1)
    (hcalls : ∀ obj ∈ statusPatches w.calls, installedCount obj.Status.Conditions ≤ 1) :
    (∀ p ∈ (Reconcile env w req).2.PlatformOperators,
      installedCount p.Status.Conditions ≤ 1) ∧
    (∀ obj ∈ statusPatches (Reconcile env w req).2.calls,
      installedCount obj.Status.Conditions ≤ 1) := by
  rcases hget : getPlatformOperatorAnswer env w.PlatformOperators req with err | po
  · rw [Reconcile_not_fetched env w req err hget]
    refine ⟨hstore, ?_⟩
    simp only [statusPatches_append, statusPatches, List.append_nil]
    exact hcalls
  · have hlook := getPlatformOperatorAnswer_ok env _ _ _ hget
    have hmem : po ∈ w.PlatformOperators := List.mem_of_find?_eq_some hlook
    obtain ⟨c, hc⟩ := reconcileFetched_conditions env w po
    have hobj : installedCount
        (withoutManagedFields (reconcileFetched env w po).2.1).Status.Conditions ≤ 1 := by
      show installedCount (reconcileFetched env w po).2.1.Status.Conditions ≤ 1
      rw [hc]
      exact installedCount_setStatusCondition _ _ _ (hstore po hmem)
    refine ⟨?_, ?_⟩
    · rw [Reconcile_fetched_eq env w req po hget]
      simp only
      rcases statusPatchAnswer env w.PlatformOperators
        (withoutManagedFields (reconcileFetched env w po).2.1) with _ | e
      · intro p hp
        rcases mem_applyStatus _ _ _ hp with h | h
        · rw [h]; exact hobj
        · exact hstore p h
      · exact hstore
    · rw [statusPatches_Reconcile env w req po hget]
      intro obj hm
      rcases List.mem_append.1 hm with h | h
      · exact hcalls obj h
      · rw [List.mem_singleton.1 h]; exact hobj

/-- C8: if every stored record and every object submitted so far carries at most
one `Installed` condition (as a newly created record does), the same holds
after any run of `Reconcile` passes, whatever the collaborators answer in
each. Setting a condition whose type is already in the list leaves the length
and the types of the list as they were: the entry is replaced, not joined by a
second one. -/
theorem ReconcileAll_installed_unique (passes : List (Env × NamespacedName)) (w : Cluster)
    (hstore : ∀ p ∈ w.PlatformOperators, installedCount p.Status.Conditions ≤ 1)
    (hcalls : ∀ obj ∈ statusPatches w.calls, installedCount obj.Status.Conditions ≤ 1) :
    (∀ p ∈ (ReconcileAll passes w).PlatformOperators,
      installedCount p.Status.Conditions ≤ 1) ∧
    (∀ obj ∈ statusPatches (ReconcileAll passes w).calls,
      installedCount obj.Status.Conditions ≤ 1) ∧
    (∀ (now : Nat) (conditions : List Condition) (n : Condition),
      (∃ c ∈ conditions, c.Type_ = n.Type_) →
      (SetStatusCondition now conditions n).length = conditions.length ∧
      (SetStatusCondition now conditions n).map (fun c => c.Type_) =
        conditions.map (fun c => c.Type_) ∧
      installedCount (SetStatusCondition now conditions n) = installedCount conditions) := by
  have hset : ∀ (now : Nat) (conditions : List Condition) (n : Condition),
      (∃ c ∈ conditions, c.Type_ = n.Type_) →
      (SetStatusCondition now conditions n).length = conditions.length ∧
      (SetStatusCondition now conditions n).map (fun c => c.Type_) =
        conditions.map (fun c => c.Type_) ∧
      installedCount (SetStatusCondition now conditions n) = installedCount conditions := by
    intro now conditions n h
    have ht := setStatusCondition_types_present now conditions n h
    refine ⟨?_, ht, ?_⟩
    · have := congrArg List.length ht
      simpa using this
    · rw [installedCount_eq, installedCount_eq, ht]
  induction passes generalizing w with
  | nil => exact ⟨hstore, hcalls, hset⟩
  | cons pass rest ih =>
    obtain ⟨env, req⟩ := pass
    obtain ⟨h1, h2⟩ := Reconcile_installed_unique env w req hstore hcalls
    exact ih (Reconcile env w req).2 h1 h2

/-! ## The properties on the sample inputs -/

/-- The resolver finds no package: the pass returns the wrapped error and submits `SourceFailed`. -/
theorem Reconcile_ensure_failure_classified_witness :
    getPlatformOperatorAnswer sourceFailEnv sampleCluster.PlatformOperators sampleRequest =
      .ok sampleRecord ∧
    (ensureDesiredBundleDeployment sourceFailEnv sampleCluster sampleRecord).1 =
      .error (.errorf "package not found in any source: failed to run sourcing logic"
        .errSourceFailed) ∧
    (Reconcile sourceFailEnv sampleCluster sampleRequest).1 =
      (Result.empty, some (.errorf
        "package not found in any source: failed to run sourcing logic" .errSourceFailed)) ∧
    statusPatches (Reconcile sourceFailEnv sampleCluster sampleRequest).2.calls =
      [{ Meta := { Name := "p", Namespace := "", ManagedFields := [] }
         Spec := { Package := { Name := "P" } }
         Status :=
          { Conditions :=
              [{ Type_ := "Installed", Status := .ConditionFalse, ObservedGeneration := 0,
                 LastTransitionTime := 7, Reason := "SourceFailed",
                 Message := "package not found in any source: failed to run sourcing logic" }]
            ActiveBundleDeployment := ⟨""⟩ } }] :=
  ⟨by rfl, by rfl,
    (Reconcile_ensure_failure_classified sourceFailEnv sampleCluster sampleRequest
      sampleRecord _ (by rfl) (by rfl)).1, by rfl⟩

/-- The child reports a failed unpack: no error is returned and the reason is copied. -/
theorem Reconcile_child_failure_no_error_witness :
    getPlatformOperatorAnswer sampleEnv failingCluster.PlatformOperators sampleRequest =
      .ok installedRecord ∧
    (ensureDesiredBundleDeployment sampleEnv failingCluster installedRecord).1 =
      .ok failingChild ∧
    sampleEnv.InspectBundleDeployment failingChild.Status.Conditions =
      some { Type_ := "Installed", Status := .ConditionFalse, ObservedGeneration := 0,
             LastTransitionTime := 3, Reason := "UnpackFailed", Message := "pull error" } ∧
    (Reconcile sampleEnv failingCluster sampleRequest).1 = (Result.empty, none) ∧
    statusPatches (Reconcile sampleEnv failingCluster sampleRequest).2.calls =
      [{ Meta := { Name := "p", Namespace := "", ManagedFields := [] }
         Spec := { Package := { Name := "P" } }
         Status :=
          { Conditions :=
              [{ Type_ := "Installed", Status := .ConditionFalse, ObservedGeneration := 0,
                 LastTransitionTime := 3, Reason := "UnpackFailed", Message := "pull error" }]
            ActiveBundleDeployment := ⟨"p"⟩ } }] :=
  ⟨by rfl, by rfl, by rfl,
    (Reconcile_child_failure_no_error sampleEnv failingCluster sampleRequest installedRecord
      failingChild _ (by rfl) (by rfl) (by rfl)).1, by rfl⟩

/-- A record, no child, a resolver returning "img:v1": the child is created and recorded. -/
theorem Reconcile_success_path_witness :
    getPlatformOperatorAnswer sampleEnv sampleCluster.PlatformOperators sampleRequest =
      .ok sampleRecord ∧
    sampleEnv.Sourcer sampleRecord = .ok ⟨"img:v1"⟩ ∧
    (Reconcile sampleEnv sampleCluster sampleRequest).1 = (Result.empty, none) ∧
    (Reconcile sampleEnv sampleCluster sampleRequest).2.BundleDeployments =
      [{ Meta := { Name := "p", Namespace := "", ManagedFields := [] }
         Spec := { Image := "img:v1" }
         Status := { Conditions := [] } }] ∧
    (Reconcile sampleEnv sampleCluster sampleRequest).2.PlatformOperators =
      [{ Meta := { Name := "p", Namespace := "", ManagedFields := ["kubectl"] }
         Spec := { Package := { Name := "P" } }
         Status :=
          { Conditions :=
              [{ Type_ := "Installed", Status := .ConditionTrue, ObservedGeneration := 0,
                 LastTransitionTime := 7, Reason := "InstallSuccessful",
                 Message := "Successfully applied the p BundleDeployment resource" }]
            ActiveBundleDeployment := ⟨"p"⟩ } }] :=
  ⟨by rfl, by rfl,
    (Reconcile_success_path sampleEnv sampleCluster sampleRequest sampleRecord
      (notFoundError ⟨"", "p"⟩) ⟨"img:v1"⟩ (by rfl) (by rfl) (by rfl) (by rfl) (by rfl)
      (by rfl)).1, by rfl, by rfl⟩

/-- A child referencing another image exists: it is returned, nothing is resolved or created. -/
theorem Reconcile_existing_child_short_circuit_witness :
    getBundleDeploymentAnswer sampleEnv failingCluster.BundleDeployments ⟨"", "p"⟩ =
      .ok failingChild ∧
    ensureDesiredBundleDeployment sampleEnv failingCluster installedRecord =
      (.ok failingChild, failingCluster.record (.getBundleDeployment ⟨"", "p"⟩)) ∧
    sourceCalls (Reconcile sampleEnv failingCluster sampleRequest).2.calls = [] ∧
    createCalls (Reconcile sampleEnv failingCluster sampleRequest).2.calls = [] ∧
    (Reconcile sampleEnv failingCluster sampleRequest).2.BundleDeployments = [failingChild] :=
  ⟨by rfl,
    Reconcile_existing_child_short_circuit sampleEnv failingCluster sampleRequest
      installedRecord failingChild (by rfl) (by rfl)⟩

/-- Two calls in a row on a cluster without child: one child, one create. -/
theorem ensure_twice_idempotent_witness :
    (ensureDesiredBundleDeployment sampleEnv sampleCluster sampleRecord).1 =
      .ok (NewBundleDeployment sampleRecord "img:v1") ∧
    (ensureDesiredBundleDeployment sampleEnv
      (ensureDesiredBundleDeployment sampleEnv sampleCluster sampleRecord).2 sampleRecord).1 =
      .ok (NewBundleDeployment sampleRecord "img:v1") ∧
    (ensureDesiredBundleDeployment sampleEnv
      (ensureDesiredBundleDeployment sampleEnv sampleCluster sampleRecord).2
        sampleRecord).2.BundleDeployments = [NewBundleDeployment sampleRecord "img:v1"] ∧
    createCalls (ensureDesiredBundleDeployment sampleEnv
      (ensureDesiredBundleDeployment sampleEnv sampleCluster sampleRecord).2
        sampleRecord).2.calls = [NewBundleDeployment sampleRecord "img:v1"] :=
  ⟨by rfl,
    congrArg Prod.fst (ensure_twice_idempotent sampleEnv sampleEnv sampleCluster sampleRecord
      (NewBundleDeployment sampleRecord "img:v1") (by rfl) (by rfl)).1,
    by rfl, by rfl⟩

/-- The successful pass on the sample cluster submits one patch, followed by log lines only. -/
theorem Reconcile_single_status_patch_witness :
    getPlatformOperatorAnswer sampleEnv sampleCluster.PlatformOperators sampleRequest =
      .ok sampleRecord ∧
    (∃ pre post obj c,
      (Reconcile sampleEnv sampleCluster sampleRequest).2.calls =
        sampleCluster.calls ++ pre ++ [.statusPatch obj "platformoperator"] ++ post ∧
      statusPatches pre = [] ∧
      (∀ x ∈ post, x.isLog = true) ∧
      statusPatches (Reconcile sampleEnv sampleCluster sampleRequest).2.calls =
        statusPatches sampleCluster.calls ++ [obj] ∧
      obj.Meta.ManagedFields = [] ∧
      obj.Status.Conditions =
        SetStatusCondition sampleEnv.now sampleRecord.Status.Conditions c) := by
  refine ⟨by rfl, ?_⟩
  obtain ⟨pre, post, obj, c, h1, h2, h3, h4, _, h6, h7, _⟩ :=
    Reconcile_single_status_patch sampleEnv sampleCluster sampleRequest sampleRecord (by rfl)
  exact ⟨pre, post, obj, c, h1, h2, h3, h4, h6, h7⟩

/-- A request for a record that is not stored: two log lines and a read, nothing else. -/
theorem Reconcile_record_not_found_witness :
    getPlatformOperatorAnswer sampleEnv sampleCluster.PlatformOperators ⟨"", "gone"⟩ =
      .error (notFoundError ⟨"", "gone"⟩) ∧
    Reconcile sampleEnv sampleCluster ⟨"", "gone"⟩ =
      ((Result.empty, none),
        { sampleCluster with calls := [.logInfo "reconciling request" ⟨"", "gone"⟩,
            .getPlatformOperator ⟨"", "gone"⟩,
            .logInfo "finished reconciling request" ⟨"", "gone"⟩] }) :=
  ⟨by rfl,
    (Reconcile_record_not_found sampleEnv sampleCluster ⟨"", "gone"⟩
      (notFoundError ⟨"", "gone"⟩) (by rfl) (by rfl)).1⟩

/-- A failing pass followed by two successful ones keeps a single `Installed` condition. -/
theorem ReconcileAll_installed_unique_witness :
    (∀ p ∈ sampleCluster.PlatformOperators, installedCount p.Status.Conditions ≤ 1) ∧
    (∀ p ∈ (ReconcileAll [(sourceFailEnv, sampleRequest), (sampleEnv, sampleRequest),
        (sampleEnv, sampleRequest)] sampleCluster).PlatformOperators,
      installedCount p.Status.Conditions ≤ 1) ∧
    (∀ obj ∈ statusPatches (ReconcileAll [(sourceFailEnv, sampleRequest),
        (sampleEnv, sampleRequest), (sampleEnv, sampleRequest)] sampleCluster).calls,
      installedCount obj.Status.Conditions ≤ 1) :=
  have h0 : ∀ p ∈ sampleCluster.PlatformOperators, installedCount p.Status.Conditions ≤ 1 := by
    decide
  have h := ReconcileAll_installed_unique [(sourceFailEnv, sampleRequest),
    (sampleEnv, sampleRequest), (sampleEnv, sampleRequest)] sampleCluster h0 (by decide)
  ⟨h0, h.1, h.2.1⟩

/-- The child of an installed record starts failing: the active child stays "p". -/
theorem Reconcile_failure_keeps_active_child_witness :
    (ensureDesiredBundleDeployment sampleEnv failingCluster installedRecord).1 =
      .ok failingChild ∧
    (∃ obj,
      statusPatches (Reconcile sampleEnv failingCluster sampleRequest).2.calls =
        statusPatches failingCluster.calls ++ [obj] ∧
      obj.Status.ActiveBundleDeployment = ⟨"p"⟩) ∧
    (lookupPlatformOperator (Reconcile sampleEnv failingCluster sampleRequest).2.PlatformOperators
        sampleRequest).map (fun p => p.Status.ActiveBundleDeployment) = some ⟨"p"⟩ := by
  obtain ⟨obj, h1, h2, _, _, _, _, h7⟩ :=
    Reconcile_failure_keeps_active_child sampleEnv failingCluster sampleRequest installedRecord
      (by rfl) (Or.inr ⟨failingChild, _, by rfl, by rfl⟩)
  exact ⟨by rfl, ⟨obj, h1, h2⟩, (h7 sampleRequest).trans (by rfl)⟩

end PlatformOperators
